import Mathlib

/-!
# SkyOdyssey-CLI: a shallow embedding of the search/caching engine

This file models the pure logic of `src/logic.py` and `src/airports.py` of
SkyOdyssey-CLI and proves the specification claims about it.  Python floats
used for fare prices are modelled exactly by `PyFloat` (a finite rational or
the non-finite sentinel); Python's cooperative `asyncio` scheduling is
modelled by sequential state passing (the cache) plus, for the request
coalescer, an explicit event/transition system.  Fallible code is modelled
with `Option`/`Except`.
-/

namespace SkyOdyssey

/-- Model of a Python float as used for fare prices: a finite rational value,
or the non-finite sentinel (`float('inf')`; any non-finite value fails
`is_valid_price`, so they are collapsed into one constructor). -/
inductive PyFloat where
  | fin (q : ℚ)
  | inf
deriving DecidableEq, Repr

/-- Python `<` on prices (`inf` is greater than every finite value). -/
def PyFloat.lt : PyFloat → PyFloat → Bool
  | .fin a, .fin b => decide (a < b)
  | .fin _, .inf => true
  | .inf, _ => false

/-- Python `<=` on prices. -/
def PyFloat.le : PyFloat → PyFloat → Bool
  | .fin a, .fin b => decide (a ≤ b)
  | .fin _, .inf => true
  | .inf, .fin _ => false
  | .inf, .inf => true

/-- Python `+` on prices. -/
def PyFloat.add : PyFloat → PyFloat → PyFloat
  | .fin a, .fin b => .fin (a + b)
  | _, _ => .inf

/-- `p > b` for a float price against a finite budget. -/
def PyFloat.gtQ (p : PyFloat) (b : ℚ) : Bool := (PyFloat.fin b).lt p

/-- `p >= b` for a float price against a finite budget. -/
def PyFloat.geQ (p : PyFloat) (b : ℚ) : Bool := (PyFloat.fin b).le p

/-- `p < b` for a float price against a finite budget. -/
def PyFloat.ltQ (p : PyFloat) (b : ℚ) : Bool := p.lt (PyFloat.fin b)

/-- `p <= b` for a float price against a finite budget. -/
def PyFloat.leQ (p : PyFloat) (b : ℚ) : Bool := p.le (PyFloat.fin b)

/-- `is_valid_price` (logic.py): a valid fare must be a positive finite
number. -/
def is_valid_price : PyFloat → Bool
  | .fin q => decide (0 < q)
  | .inf => false

/-! ## String helpers (substring tests, digit runs) -/

/-- `pat` is a prefix of `hay` (character lists). -/
def listStartsWith : List Char → List Char → Bool
  | _, [] => true
  | [], _ :: _ => false
  | a :: as, b :: bs => a == b && listStartsWith as bs

/-- `pat` occurs as a contiguous substring of `hay`. -/
def listHasSub : List Char → List Char → Bool
  | [], pat => pat.isEmpty
  | hay@(_ :: t), pat => listStartsWith hay pat || listHasSub t pat

/-- Python's `pat in s` substring test. -/
def strHasSub (s pat : String) : Bool := listHasSub s.data pat.data

/-- Numeric value of a run of decimal digits (Python `int` of the digits). -/
def digitsVal (ds : List Char) : Nat :=
  ds.foldl (fun acc c => acc * 10 + (c.toNat - '0'.toNat)) 0

/-- Python truthiness of an optional string (`None` and `""` are falsy). -/
def pyFalsyStr : Option String → Bool
  | none => true
  | some s => s.isEmpty

/-- ASCII upper-case of one character (Python `str.upper` on the code's
ASCII airport/airline data; kernel-reducible, unlike `String.toUpper`). -/
def pyUpperChar (c : Char) : Char :=
  if 97 ≤ c.toNat && c.toNat ≤ 122 then Char.ofNat (c.toNat - 32) else c

/-- Python `s.upper()`. -/
def pyUpper (s : String) : String := String.mk (s.data.map pyUpperChar)

/-- ASCII lower-case of one character. -/
def pyLowerChar (c : Char) : Char :=
  if 65 ≤ c.toNat && c.toNat ≤ 90 then Char.ofNat (c.toNat + 32) else c

/-- Python `s.lower()`. -/
def pyLower (s : String) : String := String.mk (s.data.map pyLowerChar)

/-- Python truthiness of an optional list (`None` and `[]` are falsy). -/
def pyTruthyList (l : Option (List String)) : Bool :=
  match l with
  | some (_ :: _) => true
  | _ => false

/-! ## Price parsing -/

/-- `parse_price` (logic.py): keep only digits and `.`, then take
`int(float(...))`; any failure (falsy/non-string input, no characters kept,
several dots, no digit at all) yields `float('inf')`.  Truncation of a
non-negative decimal keeps exactly the digits before the first dot.
(Digits are modelled as ASCII digits.) -/
def parse_price : Option String → PyFloat
  | none => .inf
  | some s =>
    let clean := s.data.filter (fun c => c.isDigit || c == '.')
    if clean.isEmpty then .inf
    else if 2 ≤ (clean.filter (fun c => c == '.')).length then .inf
    else if ¬ clean.any (fun c => c.isDigit) then .inf
    else .fin (digitsVal (clean.takeWhile (fun c => c != '.')))

/-! ## Clock parsing (`parse_clock_minutes`)

The Python implementation searches for the leftmost occurrence of the regex
`(\d{1,2}:\d{2}\s*[AP]M)` (case-insensitively), strips spaces from the
match, and feeds it to `strptime("%I:%M%p")`.  We replicate the leftmost
search with greedy hour digits, and the `strptime` acceptance conditions:
hour between 1 and 12 (CPython's `%I` pattern `1[0-2]|0[1-9]|[1-9]` rejects
hour 0, so e.g. `"0:30 AM"` raises `ValueError`), minutes at most 59, and no
non-space whitespace surviving the `.replace(" ", "")` (a tab matched by
`\s*` makes `strptime` fail). -/

/-- Characters matched by the regex class `\s`. -/
def isWsChar (c : Char) : Bool :=
  c == ' ' || c == '\t' || c == '\n' || c == '\r' || c.toNat == 11 || c.toNat == 12

/-- Python `s.strip()` (whitespace strip). -/
def pyStrip (s : String) : String :=
  String.mk (((s.data.dropWhile isWsChar).reverse.dropWhile isWsChar).reverse)

/-- Characters matched by `[AP]` case-insensitively. -/
def isAmPmChar (c : Char) : Bool := c == 'A' || c == 'a' || c == 'P' || c == 'p'

/-- Characters matched by the literal `M` case-insensitively. -/
def isEmChar (c : Char) : Bool := c == 'M' || c == 'm'

/-- After the hour digits: match `:` `\d{2}` `\s*` `[AP]` `M`.  Returns the
hour, the minute value, the whitespace run matched by `\s*` and the
(possibly lower-case) AM/PM character. -/
def matchClockTail (h : Nat) (cs : List Char) : Option (Nat × Nat × List Char × Char) :=
  match cs with
  | ':' :: m1 :: m2 :: rest =>
    if m1.isDigit && m2.isDigit then
      let ws := rest.takeWhile isWsChar
      match rest.dropWhile isWsChar with
      | ap :: em :: _ =>
        if isAmPmChar ap && isEmChar em then some (h, digitsVal [m1, m2], ws, ap) else none
      | _ => none
    else none
  | _ => none

/-- Match the clock regex at the head of `cs`; the hour takes two digits
greedily and backs off to one. -/
def matchClockAt (cs : List Char) : Option (Nat × Nat × List Char × Char) :=
  match cs with
  | [] => none
  | d1 :: rest1 =>
    if d1.isDigit then
      match rest1 with
      | d2 :: rest2 =>
        if d2.isDigit then
          match matchClockTail (digitsVal [d1, d2]) rest2 with
          | some r => some r
          | none => matchClockTail (digitsVal [d1]) rest1
        else matchClockTail (digitsVal [d1]) rest1
      | [] => none
    else none

/-- `re.search`: leftmost position at which the clock regex matches. -/
def searchClock : List Char → Option (Nat × Nat × List Char × Char)
  | [] => none
  | c :: rest =>
    match matchClockAt (c :: rest) with
    | some r => some r
    | none => searchClock rest

/-- `parse_clock_minutes` (logic.py): minutes since midnight of the first
clock-like substring, or `None`. -/
def parse_clock_minutes : Option String → Option Nat
  | none => none
  | some s =>
    match searchClock s.data with
    | none => none
    | some (h, m, ws, ap) =>
      if ws.all (fun c => c == ' ') && 1 ≤ h && h ≤ 12 && m ≤ 59 then
        let isPM := ap == 'P' || ap == 'p'
        let hour := if isPM then (if h == 12 then 12 else h + 12)
                    else (if h == 12 then 0 else h)
        some (hour * 60 + m)
      else none

/-! ## Duration parsing (`parse_duration_minutes`) -/

/-- Case-insensitive prefix test. -/
def listStartsWithCI : List Char → List Char → Bool
  | _, [] => true
  | [], _ :: _ => false
  | a :: as, b :: bs => pyLowerChar a == pyLowerChar b && listStartsWithCI as bs

/-- Match `(\d+)\s*` followed by `unit` at the head of `cs`. -/
def matchNumUnitAt (unit : List Char) (cs : List Char) : Option Nat :=
  let ds := cs.takeWhile Char.isDigit
  if ds.isEmpty then none
  else
    let rest := (cs.dropWhile Char.isDigit).dropWhile isWsChar
    if listStartsWithCI rest unit then some (digitsVal ds) else none

/-- Leftmost match of `(\d+)\s*unit`. -/
def searchNumUnit (unit : List Char) : List Char → Option Nat
  | [] => none
  | l@(_ :: t) =>
    match matchNumUnitAt unit l with
    | some n => some n
    | none => searchNumUnit unit t

/-- `parse_duration_minutes` (logic.py): `"2 hr 15 min"`-style durations in
minutes; anything unusable counts as `10 ^ 9`. -/
def parse_duration_minutes : Option String → Nat
  | none => 10 ^ 9
  | some s =>
    let hrs := searchNumUnit ['h', 'r'] s.data
    let mins := searchNumUnit ['m', 'i', 'n'] s.data
    let total := (hrs.getD 0) * 60 + mins.getD 0
    if 0 < total then total else 10 ^ 9

/-! ## Stops normalisation -/

/-- A provider `stops` payload: an int, a descriptive string, or absent. -/
inductive StopsVal where
  | int (n : Int)
  | str (s : String)
  | null
deriving DecidableEq, Repr

/-- `normalize_stops` (logic.py). -/
def normalize_stops : StopsVal → Int
  | .int n => n
  | .str s =>
    let digits := s.data.filter Char.isDigit
    if digits.isEmpty then 1 else (digitsVal digits : Int)
  | .null => 1

/-! ## Google Flights link building (`build_google_flights_link`) -/

/-- Upper-case hex digit. -/
def hexDigit (n : Nat) : Char :=
  if n < 10 then Char.ofNat ('0'.toNat + n) else Char.ofNat ('A'.toNat + n - 10)

/-- Characters `urllib.parse.quote_plus` never escapes. -/
def isUrlSafe (c : Char) : Bool :=
  c.isAlphanum || c == '_' || c == '.' || c == '-' || c == '~'

/-- `urllib.parse.quote_plus`: spaces become `+`, safe ASCII characters pass
through, every other UTF-8 byte is percent-encoded. -/
def quote_plus (s : String) : String :=
  String.mk ((s.toUTF8.data.toList).foldr (fun b acc =>
    if b == 32 then '+' :: acc
    else if b.toNat < 128 && isUrlSafe (Char.ofNat b.toNat) then Char.ofNat b.toNat :: acc
    else '%' :: hexDigit (b.toNat / 16) :: hexDigit (b.toNat % 16) :: acc) [])

/-- `build_google_flights_link` (logic.py): one-way Google Flights URL; the
fixed keys and values of the query dict are inlined since `urlencode` leaves
them unchanged. -/
def build_google_flights_link (origin destination date : String) : String :=
  "https://www.google.com/travel/flights?hl=en&curr=EUR&gl=fr&q=" ++
    quote_plus ("Flights from " ++ origin ++ " to " ++ destination ++ " on " ++ date)

/-! ## Dates

`datetime.strptime(s, '%Y-%m-%d')`, `timedelta(days=n)` and
`strftime('%Y-%m-%d')` are modelled on a proleptic Gregorian calendar via
the standard civil-date/day-number conversions. -/

/-- A `datetime.date` (the time-of-day part is never used). -/
structure PyDate where
  year : Int
  month : Nat
  day : Nat
deriving DecidableEq, Repr

/-- Gregorian leap year. -/
def isLeapYear (y : Int) : Bool := (y % 4 == 0 && y % 100 != 0) || y % 400 == 0

/-- Days in a month. -/
def daysInMonth (y : Int) (m : Nat) : Nat :=
  if m == 2 then (if isLeapYear y then 29 else 28)
  else if m == 4 || m == 6 || m == 9 || m == 11 then 30 else 31

/-- Day number of a civil date (days since 1970-01-01). -/
def days_from_civil (dt : PyDate) : Int :=
  let y : Int := if dt.month ≤ 2 then dt.year - 1 else dt.year
  let era : Int := Int.fdiv y 400
  let yoe : Int := y - era * 400
  let mp : Int := Int.emod ((dt.month : Int) + 9) 12
  let doy : Int := Int.fdiv (153 * mp + 2) 5 + (dt.day : Int) - 1
  let doe : Int := yoe * 365 + Int.fdiv yoe 4 - Int.fdiv yoe 100 + doy
  era * 146097 + doe - 719468

/-- Civil date of a day number (inverse of `days_from_civil`). -/
def civil_from_days (z0 : Int) : PyDate :=
  let z := z0 + 719468
  let era := Int.fdiv z 146097
  let doe := z - era * 146097
  let yoe := Int.fdiv (doe - Int.fdiv doe 1460 + Int.fdiv doe 36524 - Int.fdiv doe 146096) 365
  let y := yoe + era * 400
  let doy := doe - (365 * yoe + Int.fdiv yoe 4 - Int.fdiv yoe 100)
  let mp := Int.fdiv (5 * doy + 2) 153
  let d := doy - Int.fdiv (153 * mp + 2) 5 + 1
  let m := if mp < 10 then mp + 3 else mp - 9
  { year := if m ≤ 2 then y + 1 else y, month := m.toNat, day := d.toNat }

/-- `dt + timedelta(days = n)`. -/
def addDays (dt : PyDate) (n : Int) : PyDate := civil_from_days (days_from_civil dt + n)

/-- Zero-pad a number to a given width. -/
def padNum (width n : Nat) : String :=
  let s := toString n
  String.mk (List.replicate (width - s.length) '0') ++ s

/-- `dt.strftime('%Y-%m-%d')`. -/
def formatDate (dt : PyDate) : String :=
  padNum 4 dt.year.toNat ++ "-" ++ padNum 2 dt.month ++ "-" ++ padNum 2 dt.day

/-- The day component of `strptime('%Y-%m-%d')`: CPython's `%d` pattern
`(3[01]|[12]\d|0[1-9]|[1-9])` taken at the end of the string (leftover
characters raise `ValueError`). -/
def parseDayEnd : List Char → Option Nat
  | [d1, d2] =>
    if d1.isDigit && d2.isDigit then
      if (d1 == '3' && (d2 == '0' || d2 == '1')) || (d1 == '1' || d1 == '2') ||
          (d1 == '0' && d2 != '0') then
        some (digitsVal [d1, d2])
      else none
    else none
  | [d1] => if d1.isDigit && d1 != '0' then some (digitsVal [d1]) else none
  | _ => none

/-- The month-and-day tail of `strptime('%Y-%m-%d')`: CPython's `%m` pattern
`(1[0-2]|0[0-9]|[0-9])` followed by a literal `-` and the day. -/
def parseMonthDay : List Char → Option (Nat × Nat)
  | m1 :: m2 :: '-' :: rest =>
    if m1.isDigit && m2.isDigit then
      if m1 == '0' || (m1 == '1' && (m2 == '0' || m2 == '1' || m2 == '2')) then
        (parseDayEnd rest).map (fun d => (digitsVal [m1, m2], d))
      else none
    else none
  | m1 :: '-' :: rest =>
    if m1.isDigit then (parseDayEnd rest).map (fun d => (digitsVal [m1], d)) else none
  | _ => none

/-- `datetime.strptime(s, '%Y-%m-%d')`: a 4-digit year, the month/day tail
and the calendar-validity checks performed by the `datetime` constructor
(`ValueError` on failure is modelled as `none`). -/
def parse_date (s : String) : Option PyDate :=
  match s.data with
  | y1 :: y2 :: y3 :: y4 :: '-' :: rest =>
    if y1.isDigit && y2.isDigit && y3.isDigit && y4.isDigit then
      let y : Nat := digitsVal [y1, y2, y3, y4]
      match parseMonthDay rest with
      | some (m, d) =>
        if 1 ≤ y && 1 ≤ m && m ≤ 12 && 1 ≤ d && d ≤ daysInMonth (y : Int) m then
          some { year := (y : Int), month := m, day := d }
        else none
      | none => none
    else none
  | _ => none

/-- `expand_dates_with_flex` (logic.py): `[date-flex, …, date, …, date+flex]`;
a non-positive flex skips the `strptime` call entirely, and with a positive
flex a malformed date raises (modelled as `none`). -/
def expand_dates_with_flex (date_str : String) (date_flex : Int) : Option (List String) :=
  if date_flex ≤ 0 then some [date_str]
  else
    match parse_date date_str with
    | none => none
    | some base =>
      some ((List.range (2 * date_flex.toNat + 1)).map
        (fun i => formatDate (addDays base ((i : Int) - date_flex))))

/-! ## Airports reference data (airports.py) -/

/-- `AIRPORTS_BY_REGION` (airports.py), as an insertion-ordered association list. -/
def AIRPORTS_BY_REGION : List (String × List String) := [
  ("Europe", ["CDG", "ORY", "NCE", "LYS", "MRS", "TLS", "BOD", "NTE", "LHR", "LGW", "STN", "LTN", "MAN", "EDI", "GLA", "BHX", "BRS", "DUB", "ORK", "SNN", "NOC", "FRA", "MUC", "BER", "DUS", "HAM", "STR", "CGN", "LEJ", "HAJ", "NUE", "AMS", "EIN", "BRU", "CRL", "ZRH", "GVA", "VIE", "MAD", "BCN", "PMI", "AGP", "VLC", "SVQ", "LIS", "OPO", "FAO", "FCO", "MXP", "VCE", "BGY", "NAP", "PSA", "BLQ", "CPH", "OSL", "ARN", "HEL", "KEF", "RIX", "VNO", "TLL", "WAW", "KRK", "GDN", "PRG", "BUD", "OTP", "SOF", "BEG", "SKP", "TIA", "MSQ", "KBP", "ATH", "SKG", "HER", "IST", "SAW"]),
  ("North America", ["ATL", "LAX", "ORD", "DFW", "DEN", "JFK", "SFO", "SEA", "LAS", "MCO", "EWR", "CLT", "PHX", "IAH", "MIA", "BOS", "IAD", "DCA", "SAN", "TPA", "PHL", "MSP", "DTW", "SLC", "FLL", "BWI", "MDW", "YYZ", "YVR", "YUL", "YYC", "YEG", "YOW", "MEX", "CUN", "GDL", "MTY"]),
  ("Asia", ["HND", "ICN", "SIN", "HKG", "BKK", "PVG", "PEK", "NRT", "TPE", "KUL", "DEL", "BOM", "DXB", "DOH", "AUH", "SGN", "HAN", "MNL", "CGK", "PKX", "CAN", "SZX", "CTU", "KMG", "SHA", "KIX", "CTS", "FUK", "BLR", "HYD", "MAA", "CCU", "RUH", "JED", "KWI", "MCT"]),
  ("Africa", ["CMN", "RAK", "AGA", "TNG", "FEZ", "RBA", "NDR", "OUD", "CAI", "HRG", "SSH", "LXR", "ASW", "RMF", "HBE", "SPX", "ALG", "ORA", "AAE", "CZL", "TUN", "DJE", "MIR", "SFA", "TIP", "BEN", "MJI", "JNB", "CPT", "DUR", "HLA", "ADD", "NBO", "MBA", "LOS", "ABV", "ACC", "DSS", "DKR", "ABJ", "DAR", "ZNZ", "EBB", "KGL", "HRE", "MPM", "LAD"]),
  ("Oceania", ["SYD", "MEL", "BNE", "PER", "ADL", "OOL", "CNS", "AKL", "CHC", "WLG", "NAN"]),
  ("South America", ["GRU", "BOG", "SCL", "LIM", "EZE", "GIG", "AEP", "VVI", "UIO", "ASU", "MVD", "MDE"])]

/-- `AIRPORT_TO_COUNTRY` (airports.py); keys are unique, so an association list with first-match lookup models the Python dict. -/
def AIRPORT_TO_COUNTRY : List (String × String) := [
  ("CDG", "France"), ("ORY", "France"), ("NCE", "France"), ("LYS", "France"), ("MRS", "France"), ("TLS", "France"),
  ("BOD", "France"), ("NTE", "France"), ("LHR", "UK"), ("LGW", "UK"), ("STN", "UK"), ("LTN", "UK"),
  ("MAN", "UK"), ("EDI", "UK"), ("GLA", "UK"), ("BHX", "UK"), ("BRS", "UK"), ("DUB", "Ireland"),
  ("ORK", "Ireland"), ("SNN", "Ireland"), ("NOC", "Ireland"), ("FRA", "Germany"), ("MUC", "Germany"), ("BER", "Germany"),
  ("DUS", "Germany"), ("HAM", "Germany"), ("STR", "Germany"), ("CGN", "Germany"), ("LEJ", "Germany"), ("HAJ", "Germany"),
  ("NUE", "Germany"), ("AMS", "Netherlands"), ("EIN", "Netherlands"), ("BRU", "Belgium"), ("CRL", "Belgium"), ("ZRH", "Switzerland"),
  ("GVA", "Switzerland"), ("VIE", "Austria"), ("MAD", "Spain"), ("BCN", "Spain"), ("PMI", "Spain"), ("AGP", "Spain"),
  ("VLC", "Spain"), ("SVQ", "Spain"), ("LIS", "Portugal"), ("OPO", "Portugal"), ("FAO", "Portugal"), ("FCO", "Italy"),
  ("MXP", "Italy"), ("VCE", "Italy"), ("BGY", "Italy"), ("NAP", "Italy"), ("PSA", "Italy"), ("BLQ", "Italy"),
  ("CPH", "Denmark"), ("OSL", "Norway"), ("ARN", "Sweden"), ("HEL", "Finland"), ("KEF", "Iceland"), ("RIX", "Latvia"),
  ("VNO", "Lithuania"), ("TLL", "Estonia"), ("WAW", "Poland"), ("KRK", "Poland"), ("GDN", "Poland"), ("PRG", "Czechia"),
  ("BUD", "Hungary"), ("OTP", "Romania"), ("SOF", "Bulgaria"), ("BEG", "Serbia"), ("SKP", "North Macedonia"), ("TIA", "Albania"),
  ("MSQ", "Belarus"), ("KBP", "Ukraine"), ("ATH", "Greece"), ("SKG", "Greece"), ("HER", "Greece"), ("IST", "Turkey"),
  ("SAW", "Turkey"), ("ATL", "USA"), ("LAX", "USA"), ("ORD", "USA"), ("DFW", "USA"), ("DEN", "USA"),
  ("JFK", "USA"), ("SFO", "USA"), ("SEA", "USA"), ("LAS", "USA"), ("MCO", "USA"), ("EWR", "USA"),
  ("CLT", "USA"), ("PHX", "USA"), ("IAH", "USA"), ("MIA", "USA"), ("BOS", "USA"), ("IAD", "USA"),
  ("DCA", "USA"), ("SAN", "USA"), ("TPA", "USA"), ("PHL", "USA"), ("MSP", "USA"), ("DTW", "USA"),
  ("SLC", "USA"), ("FLL", "USA"), ("BWI", "USA"), ("MDW", "USA"), ("YYZ", "Canada"), ("YVR", "Canada"),
  ("YUL", "Canada"), ("YYC", "Canada"), ("YEG", "Canada"), ("YOW", "Canada"), ("MEX", "Mexico"), ("CUN", "Mexico"),
  ("GDL", "Mexico"), ("MTY", "Mexico"), ("HND", "Japan"), ("NRT", "Japan"), ("KIX", "Japan"), ("CTS", "Japan"),
  ("FUK", "Japan"), ("ICN", "South Korea"), ("SIN", "Singapore"), ("HKG", "Hong Kong"), ("BKK", "Thailand"), ("PVG", "China"),
  ("PEK", "China"), ("TPE", "Taiwan"), ("KUL", "Malaysia"), ("DEL", "India"), ("BOM", "India"), ("BLR", "India"),
  ("HYD", "India"), ("MAA", "India"), ("CCU", "India"), ("DXB", "UAE"), ("DOH", "Qatar"), ("AUH", "UAE"),
  ("SGN", "Vietnam"), ("HAN", "Vietnam"), ("MNL", "Philippines"), ("CGK", "Indonesia"), ("PKX", "China"), ("CAN", "China"),
  ("SZX", "China"), ("CTU", "China"), ("KMG", "China"), ("SHA", "China"), ("RUH", "Saudi Arabia"), ("JED", "Saudi Arabia"),
  ("KWI", "Kuwait"), ("MCT", "Oman"), ("CMN", "Morocco"), ("RAK", "Morocco"), ("AGA", "Morocco"), ("TNG", "Morocco"),
  ("FEZ", "Morocco"), ("RBA", "Morocco"), ("NDR", "Morocco"), ("OUD", "Morocco"), ("CAI", "Egypt"), ("HRG", "Egypt"),
  ("SSH", "Egypt"), ("LXR", "Egypt"), ("ASW", "Egypt"), ("RMF", "Egypt"), ("HBE", "Egypt"), ("SPX", "Egypt"),
  ("ALG", "Algeria"), ("ORA", "Algeria"), ("AAE", "Algeria"), ("CZL", "Algeria"), ("TUN", "Tunisia"), ("DJE", "Tunisia"),
  ("MIR", "Tunisia"), ("SFA", "Tunisia"), ("TIP", "Libya"), ("BEN", "Libya"), ("MJI", "Libya"), ("JNB", "South Africa"),
  ("CPT", "South Africa"), ("DUR", "South Africa"), ("HLA", "South Africa"), ("ADD", "Ethiopia"), ("NBO", "Kenya"), ("MBA", "Kenya"),
  ("LOS", "Nigeria"), ("ABV", "Nigeria"), ("ACC", "Ghana"), ("DSS", "Senegal"), ("DKR", "Senegal"), ("ABJ", "Cote d\x27Ivoire"),
  ("DAR", "Tanzania"), ("ZNZ", "Tanzania"), ("EBB", "Uganda"), ("KGL", "Rwanda"), ("HRE", "Zimbabwe"), ("MPM", "Mozambique"),
  ("LAD", "Angola"), ("SYD", "Australia"), ("MEL", "Australia"), ("BNE", "Australia"), ("PER", "Australia"), ("ADL", "Australia"),
  ("OOL", "Australia"), ("CNS", "Australia"), ("AKL", "New Zealand"), ("CHC", "New Zealand"), ("WLG", "New Zealand"), ("NAN", "Fiji"),
  ("GRU", "Brazil"), ("BOG", "Colombia"), ("SCL", "Chile"), ("LIM", "Peru"), ("EZE", "Argentina"), ("GIG", "Brazil"),
  ("AEP", "Argentina"), ("VVI", "Bolivia"), ("UIO", "Ecuador"), ("ASU", "Paraguay"), ("MVD", "Uruguay"), ("MDE", "Colombia")]

/-- `CITY_HUBS` (airports.py). -/
def CITY_HUBS : List (String × List String) := [
  ("Paris", ["CDG", "ORY", "BVA"]),
  ("London", ["LHR", "LGW", "STN", "LTN", "LCY", "SEN"]),
  ("Milan", ["MXP", "LIN", "BGY"]),
  ("Istanbul", ["IST", "SAW"]),
  ("New York", ["JFK", "EWR", "LGA"]),
  ("Washington DC", ["IAD", "DCA", "BWI"]),
  ("Tokyo", ["HND", "NRT"]),
  ("Seoul", ["ICN", "GMP"]),
  ("Shanghai", ["PVG", "SHA"]),
  ("Casablanca", ["CMN", "CAS"]),
  ("Cairo", ["CAI", "SPX"]),
  ("Dubai", ["DXB", "DWC"]),
  ("Buenos Aires", ["EZE", "AEP"]),
  ("Sao Paulo", ["GRU", "CGH", "VCP"])]

/-- `AIRPORT_TO_HUB` (airports.py): reverse mapping from airport code to hub
name (hub codes are pairwise distinct, so comprehension order is
immaterial). -/
def AIRPORT_TO_HUB : List (String × String) :=
  CITY_HUBS.foldl (fun acc p => acc ++ p.2.map (fun code => (code, p.1))) []

/-- Order-preserving removal of duplicates (`dict.fromkeys`). -/
def dedupPreserveAux (seen : List String) : List String → List String
  | [] => []
  | x :: xs =>
    if seen.contains x then dedupPreserveAux seen xs
    else x :: dedupPreserveAux (x :: seen) xs

/-- `list(dict.fromkeys(l))`. -/
def dedupPreserve (l : List String) : List String := dedupPreserveAux [] l

/-- `get_airports_for_region` (airports.py). -/
def get_airports_for_region (region : String) : List String :=
  if region.isEmpty then []
  else
    let rn := pyLower (pyStrip region)
    if rn == "all" then dedupPreserve (AIRPORTS_BY_REGION.foldl (fun acc p => acc ++ p.2) [])
    else
      match AIRPORTS_BY_REGION.find? (fun p => pyLower p.1 == rn) with
      | some p => p.2
      | none => []

/-- `get_airports_excluding` (airports.py).  The Python `excluded_countries`
and `excluded_airports` arguments may be `None` or a list; both `None` and
`[]` are falsy. -/
def get_airports_excluding (region : String)
    (excluded_countries excluded_airports : Option (List String)) : List String :=
  let airports := get_airports_for_region region
  if (excluded_countries.getD []).isEmpty && (excluded_airports.getD []).isEmpty then airports
  else
    let ec := (excluded_countries.getD []).map pyLower
    let ea := (excluded_airports.getD []).map pyUpper
    airports.filter (fun code =>
      ¬ ea.contains code &&
      (match AIRPORT_TO_COUNTRY.lookup code with
       | some country => ¬ ec.contains (pyLower country)
       | none => true))

/-- `get_airport_hub` (airports.py). -/
def get_airport_hub (code : String) : Option String :=
  AIRPORT_TO_HUB.lookup (pyUpper code)

/-! ## Flight records and the result cache -/

/-- The dictionary produced by `flight_to_dict` (logic.py), together with
the `buy_link` key that is added to it later; a missing `buy_link` is
`none`.  `stops` is always present and is the output of
`normalize_stops`. -/
structure Flight where
  is_best : Option Bool
  name : Option String
  departure : Option String
  arrival : Option String
  arrival_time_ahead : Option String
  duration : Option String
  stops : Int
  delay : Option String
  price : Option String
  airline : Option String
  buy_link : Option String
deriving DecidableEq, Repr

/-- A raw offer object from the `fast_flights` provider, with the attributes
the code reads via `getattr(..., None)`. -/
structure RawOffer where
  is_best : Option Bool
  name : Option String
  departure : Option String
  arrival : Option String
  arrival_time_ahead : Option String
  duration : Option String
  stops : StopsVal
  delay : Option String
  price : Option String
deriving DecidableEq, Repr

/-- `flight_to_dict` (logic.py); the `buy_link` key does not exist yet. -/
def flight_to_dict (f : RawOffer) : Flight :=
  { is_best := f.is_best, name := f.name, departure := f.departure, arrival := f.arrival,
    arrival_time_ahead := f.arrival_time_ahead, duration := f.duration,
    stops := normalize_stops f.stops, delay := f.delay, price := f.price,
    airline := f.name, buy_link := none }

/-- The result dictionary produced by a fetch (`scrape_and_cache`) or a
cache hit (`get_cached_flight`).  A fresh result has no `cached` key, which
is falsy, so `cached` is `false` there. -/
structure FetchResult where
  destination : String
  origin : String
  date : String
  price : String
  numeric_price : PyFloat
  flight : Flight
  cached : Bool
deriving DecidableEq, Repr

/-- One row of the `flights` cache table: the stored display price, numeric
price, serialized flight payload and insertion timestamp. -/
structure CacheEntry where
  price_str : String
  numeric_price : PyFloat
  flight : Flight
  timestamp : ℚ
deriving DecidableEq, Repr

/-- The cache store, keyed by the `{origin}:{dest}:{date}:{adults}:{seat}`
string. -/
def CacheF : Type := String → Option CacheEntry

/-- `CACHE_TTL` (logic.py): 6 hours, in seconds. -/
def CACHE_TTL : ℚ := 6 * 3600

/-- The cache key `f"{origin}:{dest}:{date}:{adults}:{seat_type}"`. -/
def cache_key (origin dest date : String) (adults : Nat) (seat_type : String) : String :=
  origin ++ ":" ++ dest ++ ":" ++ date ++ ":" ++ toString adults ++ ":" ++ seat_type

/-- `get_cached_flight` (logic.py): return the row for the key if it exists
and `now - timestamp < CACHE_TTL`; a hit patches a falsy `buy_link` with a
fresh Google Flights link and is tagged `cached: True`.  The function only
reads the store (a SQLite `SELECT`), it never deletes the row. -/
def get_cached_flight (cache : CacheF) (now : ℚ) (origin dest date : String)
    (adults : Nat) (seat_type : String) : Option FetchResult :=
  match cache (cache_key origin dest date adults seat_type) with
  | some e =>
    if now - e.timestamp < CACHE_TTL then
      let fl := if pyFalsyStr e.flight.buy_link then
          { e.flight with buy_link := some (build_google_flights_link origin dest date) }
        else e.flight
      some { destination := dest, origin := origin, date := date, price := e.price_str,
             numeric_price := e.numeric_price, flight := fl, cached := true }
    else none
  | none => none

/-- `set_cached_flight` (logic.py): `INSERT OR REPLACE` of the row for the
key, stamped with the current time. -/
def set_cached_flight (cache : CacheF) (now : ℚ) (origin dest date : String)
    (adults : Nat) (seat_type : String) (result : FetchResult) : CacheF :=
  fun k =>
    if k = cache_key origin dest date adults seat_type then
      some { price_str := result.price, numeric_price := result.numeric_price,
             flight := result.flight, timestamp := now }
    else cache k

/-! ## The bounded fetcher (`async_fetch_cheapest` / `scrape_and_cache`) -/

/-- The parameters of one fetch request. -/
structure FetchQuery where
  origin : String
  dest : String
  date : String
  adults : Nat := 1
  seat_type : String := "economy"
  direct_only : Bool := false
  include_airlines : Option (List String) := none
  exclude_airlines : Option (List String) := none
deriving DecidableEq, Repr

/-- The normalized coalescing key built by `build_request_key` (logic.py):
airline lists default to `[]` and are sorted. -/
structure RequestKey where
  origin : String
  dest : String
  date : String
  adults : Nat
  seat_type : String
  direct_only : Bool
  include_key : List String
  exclude_key : List String
deriving DecidableEq, Repr

/-- `build_request_key` (logic.py). -/
def build_request_key (q : FetchQuery) : RequestKey :=
  { origin := q.origin, dest := q.dest, date := q.date, adults := q.adults,
    seat_type := q.seat_type, direct_only := q.direct_only,
    include_key := (q.include_airlines.getD []).insertionSort (fun a b => a ≤ b),
    exclude_key := (q.exclude_airlines.getD []).insertionSort (fun a b => a ≤ b) }

/-- The outcome of one call to the external provider (`get_flights`): either
an exception with its message, or a result object (`none` models a falsy
result). -/
inductive ProviderOutcome where
  | raise (msg : String)
  | ok (res : Option (List RawOffer))
deriving DecidableEq

/-- A deterministic provider: the outcome for a given provider-level query
and attempt number. -/
structure ProviderQuery where
  origin : String
  dest : String
  date : String
  adults : Nat
  seat_type : String
deriving DecidableEq, Repr

/-- The external provider, modelled as a function of the query and of the
attempt number. -/
def Provider : Type := ProviderQuery → Nat → ProviderOutcome

/-- The retryable-error classification of `scrape_and_cache` (logic.py):
`"Timeout" in error_msg and "wait_for" in error_msg`. -/
def is_timeout_error (msg : String) : Bool :=
  strHasSub msg "Timeout" && strHasSub msg "wait_for"

/-- `f.get("airline") in airlines` for an optional airline and an optional
list (Python's `None in [...]` is false for string lists). -/
def airlineMem (airline : Option String) (airlines : Option (List String)) : Bool :=
  match airline with
  | some n => (airlines.getD []).contains n
  | none => false

/-- The validation-and-filter pipeline applied to raw offers in
`scrape_and_cache` (logic.py, lines 325–336): drop the `"Unavailable"`
sentinel and unparsable/non-positive prices, then apply the direct-only and
airline include/exclude filters. -/
def valid_offers (q : FetchQuery) (flights : List RawOffer) : List RawOffer :=
  let v1 := flights.filter (fun f =>
    !(f.price == some "Unavailable") && is_valid_price (parse_price f.price))
  let v2 := if q.direct_only then v1.filter (fun f => f.stops == StopsVal.int 0) else v1
  let v3 := if pyTruthyList q.include_airlines then
      v2.filter (fun f => airlineMem f.name q.include_airlines) else v2
  if pyTruthyList q.exclude_airlines then
    v3.filter (fun f => !airlineMem f.name q.exclude_airlines) else v3

/-- Python's `min(xs, key=...)` on a non-empty list: keeps the current
minimum and replaces it only on a strictly smaller key, so the first
occurrence of the minimal key wins. -/
def pyMinBy {α : Type} (key : α → PyFloat) : α → List α → α
  | x, [] => x
  | x, y :: ys => if (key y).lt (key x) then pyMinBy key y ys else pyMinBy key x ys

/-- The offer-selection step of `scrape_and_cache` (logic.py, lines
343–366): pick the first cheapest surviving offer, re-validate its price,
attach the buy link, write the cache and return the result.  (When an offer
survived validation its `price` attribute is a string, so the `.getD ""`
default is never used.) -/
def process_flights (q : FetchQuery) (now : ℚ) (cache : CacheF) (flights : List RawOffer) :
    Option FetchResult × CacheF :=
  match valid_offers q flights with
  | [] => (none, cache)
  | c :: cs =>
    let cheapest := pyMinBy (fun f => parse_price f.price) c cs
    let cheapest_price := parse_price cheapest.price
    if is_valid_price cheapest_price then
      let fl := { flight_to_dict cheapest with
        buy_link := some (build_google_flights_link q.origin q.dest q.date) }
      let r : FetchResult :=
        { destination := q.dest, origin := q.origin, date := q.date,
          price := cheapest.price.getD "", numeric_price := cheapest_price,
          flight := fl, cached := false }
      (some r, set_cached_flight cache now q.origin q.dest q.date q.adults q.seat_type r)
    else (none, cache)

/-- The trace of one `scrape_and_cache` execution: its result, the cache it
leaves behind, the number of provider calls it made and the backoff sleeps
it performed. -/
structure ScrapeOut where
  result : Option FetchResult
  cache : CacheF
  calls : Nat
  sleeps : List ℚ

/-- The retry loop of `scrape_and_cache` (logic.py, lines 292–367): on a
timeout-signature exception before the last attempt, sleep
`backoff_base * 2 ^ attempt` and retry; any other exception, or any
non-exception iteration, ends the loop.  All exceptions are caught, so the
function always returns (an absent result on failure).  `fuel` is the
number of loop iterations left (`retry_attempts + 1` at entry). -/
def scrape_go (pv : Nat → ProviderOutcome) (q : FetchQuery) (now : ℚ)
    (retry_attempts : Nat) (backoff_base : ℚ) (cache : CacheF) (attempt : Nat) :
    Nat → ScrapeOut
  | 0 => { result := none, cache := cache, calls := 0, sleeps := [] }
  | fuel + 1 =>
    match pv attempt with
    | .raise msg =>
      if is_timeout_error msg && attempt < retry_attempts then
        let rest := scrape_go pv q now retry_attempts backoff_base cache (attempt + 1) fuel
        { rest with calls := rest.calls + 1,
                    sleeps := backoff_base * 2 ^ attempt :: rest.sleeps }
      else { result := none, cache := cache, calls := 1, sleeps := [] }
    | .ok res =>
      match res with
      | some (f :: fs) =>
        let (r, cache') := process_flights q now cache (f :: fs)
        { result := r, cache := cache', calls := 1, sleeps := [] }
      | _ => { result := none, cache := cache, calls := 1, sleeps := [] }

/-- `scrape_and_cache` (logic.py): run the retry loop from attempt 0. -/
def scrape_and_cache (provider : Provider) (q : FetchQuery) (now : ℚ)
    (retry_attempts : Nat) (backoff_base : ℚ) (cache : CacheF) : ScrapeOut :=
  scrape_go (provider ⟨q.origin, q.dest, q.date, q.adults, q.seat_type⟩)
    q now retry_attempts backoff_base cache 0 (retry_attempts + 1)

/-- The observable outcome of one `async_fetch_cheapest` call: the result,
the cache left behind, the number of provider calls, the backoff sleeps and
whether a task was registered in the in-flight registry. -/
structure FetchOutput where
  result : Option FetchResult
  cache : CacheF
  provider_calls : Nat
  sleeps : List ℚ
  registered_inflight : Bool

/-- `async_fetch_cheapest` (logic.py): upper-case the airports, consult the
cache — dropping a hit with an invalid price, then re-filtering the hit
against the current call's direct-only and airline filters — and only on a
cache miss run `scrape_and_cache` (as a coalescer task when an in-flight
registry was supplied, which is when `inflight_available` is true). -/
def async_fetch_cheapest (provider : Provider) (cache : CacheF) (now : ℚ)
    (q0 : FetchQuery) (inflight_available : Bool) (retry_attempts : Nat := 2)
    (backoff_base : ℚ := 3 / 4) : FetchOutput :=
  let q := { q0 with origin := pyUpper q0.origin, dest := pyUpper q0.dest }
  match get_cached_flight cache now q.origin q.dest q.date q.adults q.seat_type with
  | some cached =>
    if !is_valid_price cached.numeric_price then
      { result := none, cache := cache, provider_calls := 0, sleeps := [],
        registered_inflight := false }
    else if q.direct_only && !(cached.flight.stops == 0) then
      { result := none, cache := cache, provider_calls := 0, sleeps := [],
        registered_inflight := false }
    else if pyTruthyList q.include_airlines && !airlineMem cached.flight.airline q.include_airlines then
      { result := none, cache := cache, provider_calls := 0, sleeps := [],
        registered_inflight := false }
    else if pyTruthyList q.exclude_airlines && airlineMem cached.flight.airline q.exclude_airlines then
      { result := none, cache := cache, provider_calls := 0, sleeps := [],
        registered_inflight := false }
    else
      { result := some cached, cache := cache, provider_calls := 0, sleeps := [],
        registered_inflight := false }
  | none =>
    let s := scrape_and_cache provider q now retry_attempts backoff_base cache
    { result := s.result, cache := s.cache, provider_calls := s.calls, sleeps := s.sleeps,
      registered_inflight := inflight_available }

/-! ## The request coalescer (logic.py, lines 374–389)

`asyncio` schedules tasks cooperatively on a single thread, and the code
between reading `inflight_requests.get(request_key)` and storing
`inflight_requests[request_key] = created_task` contains no suspension
point, so a caller's check-or-register step is atomic.  The creator task's
`finally` block removes the registration when the task it awaits completes.
We model this as an event/transition system: an `arrive` event is one
caller's atomic check-or-register step, and a `finish` event is the
completion of a task together with its creator's `finally` block (the
guarded `pop` is modelled by removing exactly the registrations that point
at the finished task).  `created` is the ledger of created tasks: each
created task runs `scrape_and_cache` once, i.e. is one unit of provider
work. -/

/-- The state of the in-flight registry together with observation ledgers:
which tasks were created (and for which key), which task each caller awaits,
and the results of completed tasks. -/
structure CoalescerState where
  registry : List (RequestKey × Nat)
  next_id : Nat
  created : List (Nat × RequestKey)
  waiting : List (Nat × Nat)
  finished : List (Nat × Option FetchResult)
deriving Repr

/-- Registry lookup (`inflight_requests.get(request_key)`). -/
def regLookup (reg : List (RequestKey × Nat)) (k : RequestKey) : Option Nat :=
  match reg with
  | [] => none
  | (k', t) :: rest => if k' = k then some t else regLookup rest k

/-- Ledger lookup by task or caller id. -/
def natLookup {α : Type} (l : List (Nat × α)) (i : Nat) : Option α :=
  match l with
  | [] => none
  | (j, x) :: rest => if j = i then some x else natLookup rest i

/-- Coalescer events: a caller arriving at the registry check with its
request key, or a task completing with its result. -/
inductive CoEvent where
  | arrive (caller : Nat) (key : RequestKey)
  | finish (task : Nat) (res : Option FetchResult)

/-- One step of the coalescer (logic.py, lines 374–387): an arriving caller
awaits the registered task if one exists, otherwise it creates a task,
registers it and awaits it; a finishing task records its result and its
registration is removed. -/
def coStep (st : CoalescerState) : CoEvent → CoalescerState
  | .arrive c k =>
    match regLookup st.registry k with
    | some t => { st with waiting := st.waiting ++ [(c, t)] }
    | none =>
      let t := st.next_id
      { registry := st.registry ++ [(k, t)], next_id := t + 1,
        created := st.created ++ [(t, k)],
        waiting := st.waiting ++ [(c, t)], finished := st.finished }
  | .finish t r =>
    { st with finished := st.finished ++ [(t, r)],
              registry := st.registry.filter (fun p => !(p.2 == t)) }

/-- The empty coalescer. -/
def coInit : CoalescerState :=
  { registry := [], next_id := 0, created := [], waiting := [], finished := [] }

/-- Run a list of events. -/
def coRun (events : List CoEvent) : CoalescerState := events.foldl coStep coInit

/-- What a caller's `await` returns once the task it awaits has finished. -/
def callerResult (st : CoalescerState) (c : Nat) : Option (Option FetchResult) :=
  match natLookup st.waiting c with
  | some t => natLookup st.finished t
  | none => none

/-! ## Direct-route options (`fetch_route_options`) -/

/-- A leg/option dictionary as built by `fetch_route_options` and the
anywhere mode (logic.py, lines 779–791 and 1012–1024). -/
structure Leg where
  origin : String
  destination : String
  date : String
  price : String
  numeric_price : PyFloat
  stops : Int
  carrier : Option String
  departure : Option String
  arrival : Option String
  duration : Option String
  buy_link : Option String
deriving DecidableEq, Repr

/-- `leg_matches_time_filters` (logic.py). -/
def leg_matches_time_filters (departure arrival : Option String)
    (depart_after_minutes depart_before_minutes arrive_before_minutes : Option Nat) : Bool :=
  let dep := parse_clock_minutes departure
  let arr := parse_clock_minutes arrival
  (match depart_after_minutes with
   | some t => match dep with | some d => decide (t ≤ d) | none => false
   | none => true) &&
  (match depart_before_minutes with
   | some t => match dep with | some d => decide (d ≤ t) | none => false
   | none => true) &&
  (match arrive_before_minutes with
   | some t => match arr with | some a => decide (a ≤ t) | none => false
   | none => true)

/-- The deduplication signature of an option (logic.py, lines 799–806). -/
def route_sig (o : Leg) :
    Option String × Option String × Option String × Option String × String × Int :=
  (o.carrier, o.departure, o.arrival, o.duration, o.price, o.stops)

/-- The option-building loop of `fetch_route_options` (logic.py, lines
761–810): validate the price, apply the direct/airline filters, build the
option record, apply the time-window filters and deduplicate by
signature. -/
def build_route_opts (origin destination date : String) (direct_only : Bool)
    (include_airlines exclude_airlines : Option (List String))
    (depart_after_minutes depart_before_minutes arrive_before_minutes : Option Nat) :
    List RawOffer →
    List (Option String × Option String × Option String × Option String × String × Int) →
    List Leg
  | [], _ => []
  | f :: fs, seen =>
    let price_str := f.price
    let numeric_price := parse_price price_str
    if price_str == some "Unavailable" || !is_valid_price numeric_price then
      build_route_opts origin destination date direct_only include_airlines exclude_airlines
        depart_after_minutes depart_before_minutes arrive_before_minutes fs seen
    else
      let stops := normalize_stops f.stops
      let airline := f.name
      if (direct_only && !(stops == 0)) ||
          (pyTruthyList include_airlines && !airlineMem airline include_airlines) ||
          (pyTruthyList exclude_airlines && airlineMem airline exclude_airlines) then
        build_route_opts origin destination date direct_only include_airlines exclude_airlines
          depart_after_minutes depart_before_minutes arrive_before_minutes fs seen
      else
        let o : Leg :=
          { origin := origin, destination := destination, date := date,
            price := price_str.getD "", numeric_price := numeric_price, stops := stops,
            carrier := airline, departure := f.departure, arrival := f.arrival,
            duration := f.duration,
            buy_link := some (build_google_flights_link origin destination date) }
        if !leg_matches_time_filters o.departure o.arrival
            depart_after_minutes depart_before_minutes arrive_before_minutes then
          build_route_opts origin destination date direct_only include_airlines exclude_airlines
            depart_after_minutes depart_before_minutes arrive_before_minutes fs seen
        else if seen.contains (route_sig o) then
          build_route_opts origin destination date direct_only include_airlines exclude_airlines
            depart_after_minutes depart_before_minutes arrive_before_minutes fs seen
        else
          o :: build_route_opts origin destination date direct_only include_airlines
            exclude_airlines depart_after_minutes depart_before_minutes arrive_before_minutes
            fs (route_sig o :: seen)

/-- The retry loop of `fetch_route_options` (logic.py, lines 734–756):
`break` on success; retry on a timeout signature before the last attempt;
return an error payload otherwise.  Falling out of the loop without a
success (impossible with fuel `retry_attempts + 1`) leaves `res = None`. -/
def route_fetch_go (pv : Nat → ProviderOutcome) (origin destination : String)
    (retry_attempts : Nat) (attempt : Nat) : Nat → Except String (Option (List RawOffer))
  | 0 => .ok none
  | fuel + 1 =>
    match pv attempt with
    | .ok res => .ok res
    | .raise msg =>
      if is_timeout_error msg && attempt < retry_attempts then
        route_fetch_go pv origin destination retry_attempts (attempt + 1) fuel
      else if is_timeout_error msg then
        .error ("Search timed out for " ++ origin ++ "->" ++ destination ++ ".")
      else
        .error ("Error checking " ++ origin ++ "->" ++ destination ++ ": " ++ msg)

/-- The payload returned by `fetch_route_options`: an error dictionary or an
options list. -/
inductive RouteOptionsOut where
  | err (msg : String)
  | ok (options : List Leg)
deriving DecidableEq, Repr

/-- `fetch_route_options` (logic.py): fetch with retries, build the filtered
deduplicated options, sort them by numeric price and cap the count. -/
def fetch_route_options (provider : Provider) (origin0 destination0 date : String)
    (max_results : Nat := 10) (adults : Nat := 1) (seat_type : String := "economy")
    (direct_only : Bool := false)
    (include_airlines : Option (List String) := none)
    (exclude_airlines : Option (List String) := none)
    (depart_after_minutes : Option Nat := none)
    (depart_before_minutes : Option Nat := none)
    (arrive_before_minutes : Option Nat := none)
    (retry_attempts : Nat := 2) : RouteOptionsOut :=
  let origin := pyUpper origin0
  let destination := pyUpper destination0
  match route_fetch_go (provider ⟨origin, destination, date, adults, seat_type⟩)
      origin destination retry_attempts 0 (retry_attempts + 1) with
  | .error msg => .err msg
  | .ok none => .ok []
  | .ok (some []) => .ok []
  | .ok (some flights) =>
    let options := build_route_opts origin destination date direct_only include_airlines
      exclude_airlines depart_after_minutes depart_before_minutes arrive_before_minutes
      flights []
    .ok ((options.insertionSort (fun a b => a.numeric_price.le b.numeric_price = true)).take max_results)

/-! ## Destination exploration (`get_cheapest_destinations_logic`)

The per-destination fetches are issued together and gathered; `gather`
preserves input order, and the shared cache/in-flight registry only ever
make a later task observe a completed earlier result, so the batch is
modelled as a sequential left-to-right run threading the cache. -/

/-- `compute_concurrency` (logic.py). -/
def compute_concurrency (limit_hint : Nat) (max_concurrency : Nat := 4) : Nat :=
  max 1 (min max_concurrency (limit_hint / 2 + 1))

/-- The payload of `get_cheapest_destinations_logic`: an error dictionary or
the sorted options. -/
inductive DestOut where
  | err (msg : String)
  | ok (origin date : String) (cheapest_options : List FetchResult)
deriving DecidableEq, Repr

/-- Run the gathered per-destination fetches of
`get_cheapest_destinations_logic`, threading the cache. -/
def run_dest_fetches (provider : Provider) (now : ℚ) (mkq : String → FetchQuery) :
    CacheF → List String → List (Option FetchResult) × CacheF
  | cache, [] => ([], cache)
  | cache, d :: ds =>
    let o := async_fetch_cheapest provider cache now (mkq d) true
    let (rest, cache') := run_dest_fetches provider now mkq o.cache ds
    (o.result :: rest, cache')

/-- `get_cheapest_destinations_logic` (logic.py): resolve the destination
set, error out if it is empty, fetch the cheapest quote per destination and
return the non-absent results sorted by numeric price. -/
def get_cheapest_destinations_logic (provider : Provider) (cache : CacheF) (now : ℚ)
    (origin0 date : String) (region : String := "Europe") (limit : Nat := 15)
    (adults : Nat := 1) (seat_type : String := "economy")
    (excluded_countries : Option (List String) := none)
    (excluded_airports : Option (List String) := none) (direct_only : Bool := false)
    (include_airlines : Option (List String) := none)
    (exclude_airlines : Option (List String) := none) : DestOut × CacheF :=
  let origin := pyUpper origin0
  let destinations := get_airports_excluding region excluded_countries excluded_airports
  if destinations.isEmpty then (.err "No airports matching filters.", cache)
  else
    let destinations := (destinations.filter (fun d => !(d == origin))).take limit
    let (results, cache') := run_dest_fetches provider now
      (fun d => { origin := origin, dest := d, date := date, adults := adults,
                  seat_type := seat_type, direct_only := direct_only,
                  include_airlines := include_airlines,
                  exclude_airlines := exclude_airlines }) cache destinations
    let kept := results.filterMap id
    (.ok origin date (kept.insertionSort (fun a b => a.numeric_price.le b.numeric_price = true)), cache')

/-! ## Result ranking (`sort_basic_results`) -/

/-- A basic-mode result: a total price and its legs. -/
structure BasicResult where
  total_price : PyFloat
  legs : List Leg
deriving DecidableEq, Repr

/-- Python's `x or default` on an optional number: `None` **and `0`** are
falsy, so both fall back to the default. -/
def pyOrNat (v : Option Nat) (d : Nat) : Nat :=
  match v with
  | some m => if m == 0 then d else m
  | none => d

/-- The `duration` sort key: the sum of the parsed per-leg durations. -/
def duration_key (x : BasicResult) : Nat :=
  (x.legs.map (fun leg => parse_duration_minutes leg.duration)).sum

/-- The `stops` sort key: the sum of the per-leg stop counts. -/
def stops_key (x : BasicResult) : Int :=
  (x.legs.map (fun leg => leg.stops)).sum

/-- `(x.get("legs") or [{}])[0].get("departure")`. -/
def first_leg_departure (x : BasicResult) : Option String :=
  match x.legs with
  | [] => none
  | leg :: _ => leg.departure

/-- The `departure` sort key:
`parse_clock_minutes(first_leg_departure) or 10**9`. -/
def departure_key (x : BasicResult) : Nat :=
  pyOrNat (parse_clock_minutes (first_leg_departure x)) (10 ^ 9)

/-- `sort_basic_results` (logic.py): a stable ascending sort by the selected
key (Python's `list.sort(key=...)`). -/
def sort_basic_results (results : List BasicResult) (sort_by : String) : List BasicResult :=
  if sort_by == "duration" then
    results.insertionSort (fun a b => duration_key a ≤ duration_key b)
  else if sort_by == "stops" then
    results.insertionSort (fun a b => stops_key a ≤ stops_key b)
  else if sort_by == "departure" then
    results.insertionSort (fun a b => departure_key a ≤ departure_key b)
  else
    results.insertionSort (fun a b => a.total_price.le b.total_price = true)

/-! ## The anywhere mode (`find_anywhere_flights_logic`) -/

/-- `if max_budget and price > max_budget`: the budget must be truthy
(neither `None` nor `0`) and exceeded. -/
def budgetExceeded (max_budget : Option ℚ) (p : PyFloat) : Bool :=
  match max_budget with
  | some b => !(b == 0) && p.gtQ b
  | none => false

/-- Python truthiness of the optional budget. -/
def budgetTruthy (max_budget : Option ℚ) : Bool :=
  match max_budget with
  | some b => !(b == 0)
  | none => false

/-- The `no_result_hint` diagnostic payload. -/
structure NoResultHint where
  reason : String
  cheapest_total : PyFloat
  closest_alternatives : List BasicResult
deriving DecidableEq, Repr

/-- The payload of `find_anywhere_flights_logic` (it has no top-level error
shape: every return path carries `mode` and `results`). -/
structure AnywherePayload where
  mode : String
  results : List BasicResult
  no_result_hint : Option NoResultHint
deriving DecidableEq, Repr

/-- The leg dictionary the anywhere mode builds from a destination option
(logic.py, lines 996–1008 and 1012–1024; both branches build the same
fields). -/
def anywhere_leg (origin : String) (opt : FetchResult) : Leg :=
  { origin := origin, destination := opt.destination, date := opt.date, price := opt.price,
    numeric_price := opt.numeric_price,
    stops := normalize_stops (StopsVal.int opt.flight.stops),
    carrier := opt.flight.airline, departure := opt.flight.departure,
    arrival := opt.flight.arrival, duration := opt.flight.duration,
    buy_link := if pyFalsyStr opt.flight.buy_link then
        some (build_google_flights_link origin opt.destination opt.date)
      else opt.flight.buy_link }

/-- The option/over-budget partition loop of `find_anywhere_flights_logic`
(logic.py, lines 992–1035): over-budget options are diverted to the hint
pool (before the time filters), the rest are time-filtered. -/
def anywhere_partition (origin : String) (max_budget : Option ℚ)
    (depart_after_minutes depart_before_minutes arrive_before_minutes : Option Nat) :
    List FetchResult → List BasicResult × List BasicResult
  | [] => ([], [])
  | opt :: rest =>
    let (opts, over) := anywhere_partition origin max_budget depart_after_minutes
      depart_before_minutes arrive_before_minutes rest
    let leg := anywhere_leg origin opt
    if budgetExceeded max_budget opt.numeric_price then
      (opts, { total_price := opt.numeric_price, legs := [leg] } :: over)
    else if !leg_matches_time_filters leg.departure leg.arrival
        depart_after_minutes depart_before_minutes arrive_before_minutes then
      (opts, over)
    else
      ({ total_price := leg.numeric_price, legs := [leg] } :: opts, over)

/-- The date-window collection loop of `find_anywhere_flights_logic`
(logic.py, lines 970–987): run the destination exploration per date,
threading the cache, and skip error payloads. -/
def anywhere_collect (provider : Provider) (now : ℚ) (origin region : String)
    (search_width : Nat) (excluded_countries excluded_airports : Option (List String))
    (direct_only : Bool) (include_airlines exclude_airlines : Option (List String)) :
    CacheF → List String → List FetchResult × CacheF
  | cache, [] => ([], cache)
  | cache, date :: ds =>
    let (res, cache') := get_cheapest_destinations_logic provider cache now origin date region
      search_width 1 "economy" excluded_countries excluded_airports direct_only
      include_airlines exclude_airlines
    let (rest, cache'') := anywhere_collect provider now origin region search_width
      excluded_countries excluded_airports direct_only include_airlines exclude_airlines
      cache' ds
    match res with
    | .err _ => (rest, cache'')
    | .ok _ _ opts => (opts ++ rest, cache'')

/-- `find_anywhere_flights_logic` (logic.py): one-leg anywhere search.  The
result is `none` when the flexible-date expansion raises on a malformed
date (with positive flex); otherwise the payload, which never carries a
top-level error field. -/
def find_anywhere_flights_logic (provider : Provider) (cache : CacheF) (now : ℚ)
    (origin0 date : String) (region : String := "All") (max_results : Nat := 10)
    (limit : Nat := 10) (direct_only : Bool := false)
    (include_airlines : Option (List String) := none)
    (exclude_airlines : Option (List String) := none)
    (excluded_countries : Option (List String) := none)
    (excluded_airports : Option (List String) := none)
    (max_budget : Option ℚ := none) (sort_by : String := "price") (date_flex : Int := 0)
    (depart_after_minutes : Option Nat := none)
    (depart_before_minutes : Option Nat := none)
    (arrive_before_minutes : Option Nat := none) : Option AnywherePayload :=
  let origin := pyUpper origin0
  let search_width := max (limit * 3) max_results
  match expand_dates_with_flex date date_flex with
  | none => none
  | some dates =>
    let (all_options, _) := anywhere_collect provider now origin region search_width
      excluded_countries excluded_airports direct_only include_airlines exclude_airlines
      cache dates
    if all_options.isEmpty then some { mode := "anywhere", results := [], no_result_hint := none }
    else
      let (options, over_budget) := anywhere_partition origin max_budget depart_after_minutes
        depart_before_minutes arrive_before_minutes all_options
      let sorted := sort_basic_results options sort_by
      let results := sorted.take max_results
      if results.isEmpty && budgetTruthy max_budget && !over_budget.isEmpty then
        let sorted_over := sort_basic_results over_budget sort_by
        match sorted_over with
        | h :: _ =>
          some { mode := "anywhere", results := results,
                 no_result_hint := some { reason := "budget", cheapest_total := h.total_price,
                                          closest_alternatives := sorted_over.take 3 } }
        | [] => some { mode := "anywhere", results := results, no_result_hint := none }
      else some { mode := "anywhere", results := results, no_result_hint := none }

/-! ## The three-leg odyssey search (`find_cheapest_two_city_itinerary_logic`) -/

/-- `if max_budget and price >= max_budget` (the Step-3 early-exit test). -/
def budgetReached (max_budget : Option ℚ) (p : PyFloat) : Bool :=
  match max_budget with
  | some b => !(b == 0) && p.geQ b
  | none => false

/-- Python `range(a, b)` over integers. -/
def intRange (a b : Int) : List Int :=
  (List.range (b - a).toNat).map (fun i => a + (i : Int))

/-- The `origin` argument: a string, a list of strings, or something that
makes `list(origin)` raise `TypeError`. -/
inductive OriginInput where
  | one (s : String)
  | many (l : List String)
  | malformed

/-- A `stay_days` argument: an int, a two-element `[min, max]` list, or
something whose `int(...)` conversion raises. -/
inductive StayInput where
  | fixed (n : Int)
  | range2 (lo hi : Int)
  | malformed

/-- `get_day_range` (logic.py): `none` models the raised
`ValueError`/`TypeError` that the surrounding `try` turns into the
configuration-error payload. -/
def get_day_range : StayInput → Option (List Int)
  | .range2 lo hi => some (intRange lo (hi + 1))
  | .fixed n => some [n]
  | .malformed => none

/-- The validated configuration produced by the `try` block of
`find_cheapest_two_city_itinerary_logic` (logic.py, lines 458–476). -/
structure OdysseyConfig where
  dt_start : PyDate
  date_1 : String
  stay1_range : List Int
  stay2_range : List Int
  origins : List String
  normalized_return_origin : Option String
deriving DecidableEq, Repr

/-- The `try` block of `find_cheapest_two_city_itinerary_logic`: parse the
start date, resolve the stay ranges, normalize the origin list and the
optional (falsy-aware) return origin; any failure is the configuration
error. -/
def odyssey_validate (origin : OriginInput) (start_date : String)
    (stay_days_1 stay_days_2 : StayInput) (return_origin : Option String) :
    Option OdysseyConfig :=
  match parse_date start_date with
  | none => none
  | some dt =>
    let nro : Option String := match return_origin with
      | some r => if r.isEmpty then none else some (pyUpper r)
      | none => none
    match get_day_range stay_days_1, get_day_range stay_days_2 with
    | some s1, some s2 =>
      match origin with
      | .malformed => none
      | .one s => some ⟨dt, formatDate dt, s1, s2, [pyUpper s], nro⟩
      | .many l => some ⟨dt, formatDate dt, s1, s2, l.map pyUpper, nro⟩
    | _, _ => none

/-- A Stage-1 candidate: a destination quote annotated with the search
origin it descends from (`opt["search_origin"] = orig`). -/
structure CandA where
  quote : FetchResult
  search_origin : String
deriving DecidableEq, Repr

/-- A planned Stage-3 return fetch: the branch (`cand_a`, `cand_b`) and the
fetch query that will be issued for its return leg. -/
structure ReturnTask where
  cand_a : CandA
  cand_b : FetchResult
  query : FetchQuery
deriving DecidableEq, Repr

/-- The Step-1 sweep (logic.py, lines 502–519): one destination exploration
per origin, with the origin's country excluded when forcing different
countries, threading the cache. -/
def odyssey_sweep (provider : Provider) (now : ℚ) (date_1 region : String)
    (limit_per_leg : Nat) (force : Bool)
    (excluded_countries excluded_airports : Option (List String)) (direct_only : Bool)
    (incl excl : Option (List String)) :
    CacheF → List String → List (String × DestOut) × CacheF
  | cache, [] => ([], cache)
  | cache, o :: os =>
    let step1_excluded := (excluded_countries.getD []) ++
      (if force then
        (match AIRPORT_TO_COUNTRY.lookup o with | some c => [c] | none => [])
      else [])
    let (res, cache') := get_cheapest_destinations_logic provider cache now o date_1 region
      (max (limit_per_leg * 2) 4) 1 "economy" (some step1_excluded) excluded_airports
      direct_only incl excl
    let (rest, cache'') := odyssey_sweep provider now date_1 region limit_per_leg force
      excluded_countries excluded_airports direct_only incl excl cache' os
    ((o, res) :: rest, cache'')

/-- The per-origin option loop of Step 1 (logic.py, lines 525–530): prune
options over budget, annotate the rest with their search origin. -/
def step1_opts (max_budget : Option ℚ) (orig : String) :
    List FetchResult → List CandA × Nat
  | [] => ([], 0)
  | opt :: rest =>
    let (cs, pruned) := step1_opts max_budget orig rest
    if budgetExceeded max_budget opt.numeric_price then (cs, pruned + 1)
    else ({ quote := opt, search_origin := orig } :: cs, pruned)

/-- The Step-1 candidate collection (logic.py, lines 521–531): per origin,
keep the first `limit_per_leg` options of a successful sweep. -/
def step1_collect (max_budget : Option ℚ) (limit_per_leg : Nat) :
    List (String × DestOut) → List CandA × Nat
  | [] => ([], 0)
  | (orig, res) :: rest =>
    let (cs, pruned) := step1_collect max_budget limit_per_leg rest
    match res with
    | .err _ => (cs, pruned)
    | .ok _ _ opts =>
      let (kept, pr) := step1_opts max_budget orig (opts.take limit_per_leg)
      (kept ++ cs, pr + pruned)

/-- The inner stay-length loop of Step 2 (logic.py, lines 561–572):
one destination exploration per stay length, threading the cache. -/
def step2_for_cand (provider : Provider) (now : ℚ) (dt_start : PyDate) (region : String)
    (limit_per_leg : Nat) (step2_excluded : List String)
    (excluded_airports : Option (List String)) (direct_only : Bool)
    (incl excl : Option (List String)) (city_a : String) :
    CacheF → List Int → List (Int × DestOut) × CacheF
  | cache, [] => ([], cache)
  | cache, s1 :: rest =>
    let date_2 := formatDate (addDays dt_start s1)
    let (res, cache') := get_cheapest_destinations_logic provider cache now city_a date_2
      region limit_per_leg 1 "economy" (some step2_excluded) excluded_airports direct_only
      incl excl
    let (more, cache'') := step2_for_cand provider now dt_start region limit_per_leg
      step2_excluded excluded_airports direct_only incl excl city_a cache' rest
    ((s1, res) :: more, cache'')

/-- Step 2 (logic.py, lines 546–574): branch on each Stage-1 candidate with
its per-candidate country exclusions, collecting `(cand_a, s1, result)`
tuples in task-creation order. -/
def odyssey_step2 (provider : Provider) (now : ℚ) (dt_start : PyDate) (region : String)
    (limit_per_leg : Nat) (force : Bool)
    (excluded_countries excluded_airports : Option (List String)) (direct_only : Bool)
    (incl excl : Option (List String)) (stay1_range : List Int) :
    CacheF → List CandA → List (CandA × Int × DestOut) × CacheF
  | cache, [] => ([], cache)
  | cache, ca :: cas =>
    let city_a := ca.quote.destination
    let country_a := AIRPORT_TO_COUNTRY.lookup (pyUpper city_a)
    let origin_country := AIRPORT_TO_COUNTRY.lookup (pyUpper ca.search_origin)
    let step2_excluded := (excluded_countries.getD []) ++
      (if force then
        (match country_a with | some c => [c] | none => []) ++
          (match origin_country with | some c => [c] | none => [])
      else [])
    let (pairs, cache') := step2_for_cand provider now dt_start region limit_per_leg
      step2_excluded excluded_airports direct_only incl excl city_a cache stay1_range
    let (rest, cache'') := odyssey_step2 provider now dt_start region limit_per_leg force
      excluded_countries excluded_airports direct_only incl excl stay1_range cache' cas
    (pairs.map (fun p => (ca, p.1, p.2)) ++ rest, cache'')

/-- The innermost stay-length-2 loop of Step 3 (logic.py, lines 596–610):
**before creating any return fetch**, prune the branch when
`leg1.price + leg2.price >= budget`; otherwise plan the return fetch for
the computed return date.  Returns `(tasks, step3_budget_pruned)`. -/
def step3_s2_loop (direct_only : Bool) (incl excl : Option (List String)) (dt_start : PyDate)
    (max_budget : Option ℚ) (ca : CandA) (s1 : Int) (cb : FetchResult) (ret_dest : String) :
    List Int → List ReturnTask × Nat
  | [] => ([], 0)
  | s2 :: rest =>
    let (ts, pruned) := step3_s2_loop direct_only incl excl dt_start max_budget ca s1 cb
      ret_dest rest
    let current_cost := ca.quote.numeric_price.add cb.numeric_price
    if budgetReached max_budget current_cost then (ts, pruned + 1)
    else
      let date_3 := formatDate (addDays dt_start (s1 + s2))
      ({ cand_a := ca, cand_b := cb,
         query := { origin := cb.destination, dest := ret_dest, date := date_3,
                    direct_only := direct_only, include_airlines := incl,
                    exclude_airlines := excl } } :: ts, pruned)

/-- The City-B loop of Step 3 (logic.py, lines 589–610): discard degenerate
loops (City B equal to a requested origin or to City A), resolve the return
destination and run the stay-length-2 loop. -/
def step3_b_loop (origins : List String) (nro : Option String) (direct_only : Bool)
    (incl excl : Option (List String)) (dt_start : PyDate) (max_budget : Option ℚ)
    (stay2_range : List Int) (ca : CandA) (s1 : Int) :
    List FetchResult → List ReturnTask × Nat
  | [] => ([], 0)
  | cb :: rest =>
    let (ts, pruned) := step3_b_loop origins nro direct_only incl excl dt_start max_budget
      stay2_range ca s1 rest
    if origins.contains cb.destination || cb.destination == ca.quote.destination then
      (ts, pruned)
    else
      let ret_dest := nro.getD ca.search_origin
      let (ts1, p1) := step3_s2_loop direct_only incl excl dt_start max_budget ca s1 cb
        ret_dest stay2_range
      (ts1 ++ ts, p1 + pruned)

/-- Step-3 planning (logic.py, lines 579–616): walk the Stage-2 results in
order, skipping error payloads; returns
`(return tasks, step2_candidates, step3_budget_pruned)`. -/
def step3_plan (origins : List String) (nro : Option String) (direct_only : Bool)
    (incl excl : Option (List String)) (dt_start : PyDate) (max_budget : Option ℚ)
    (stay2_range : List Int) :
    List (CandA × Int × DestOut) → List ReturnTask × Nat × Nat
  | [] => ([], 0, 0)
  | (ca, s1, res) :: rest =>
    let (ts, c2, pr) := step3_plan origins nro direct_only incl excl dt_start max_budget
      stay2_range rest
    match res with
    | .err _ => (ts, c2, pr)
    | .ok _ _ opts =>
      let (ts1, p1) := step3_b_loop origins nro direct_only incl excl dt_start max_budget
        stay2_range ca s1 opts
      (ts1 ++ ts, opts.length + c2, p1 + pr)

/-- Await the planned return fetches in order, threading the cache
(logic.py, line 618). -/
def run_return_fetches (provider : Provider) (now : ℚ) :
    CacheF → List ReturnTask → List (ReturnTask × Option FetchResult) × CacheF
  | cache, [] => ([], cache)
  | cache, t :: ts =>
    let o := async_fetch_cheapest provider cache now t.query true
    let (rest, cache') := run_return_fetches provider now o.cache ts
    ((t, o.result) :: rest, cache')

/-- An `ItineraryLeg` record (logic.py, Pydantic model). -/
structure ItineraryLeg where
  origin : String
  destination : String
  date : String
  price : String
  stops : Int
  carrier : Option String
  departure : Option String
  arrival : Option String
  duration : Option String
  buy_link : Option String
deriving DecidableEq, Repr

/-- An `ItineraryModel` record (logic.py, Pydantic model). -/
structure ItineraryModel where
  total_price : PyFloat
  origin : String
  return_destination : String
  legs : List ItineraryLeg
  cached : Bool
  warning : Option String
deriving DecidableEq, Repr

/-- The airport-change detection of the assembly step (logic.py, lines
632–646). -/
def airport_change_warning (ca_dest cb_origin cb_dest ret_dest : String) : Option String :=
  let w1 : Option String :=
    if !(ca_dest == cb_origin) then
      match get_airport_hub ca_dest, get_airport_hub cb_origin with
      | some hub_a, some hub_b =>
        if hub_a == hub_b then
          some ("Airport change required in " ++ hub_a ++ " (" ++ ca_dest ++ " to " ++
            cb_origin ++ ")")
        else none
      | _, _ => none
    else none
  match w1 with
  | some w => some w
  | none =>
    if !(cb_dest == ret_dest) then
      match get_airport_hub cb_dest, get_airport_hub ret_dest with
      | some hub_b, some hub_r =>
        if hub_b == hub_r then
          some ("Airport change required in " ++ hub_b ++ " (" ++ cb_dest ++ " to " ++
            ret_dest ++ ")")
        else none
      | _, _ => none
    else none

/-- A leg record built from a quote dictionary (logic.py, lines 654–689;
all three legs use the same field mapping). -/
def itinerary_leg_of (leg_origin leg_destination : String) (src : FetchResult) :
    ItineraryLeg :=
  { origin := leg_origin, destination := leg_destination, date := src.date,
    price := src.price, stops := normalize_stops (StopsVal.int src.flight.stops),
    carrier := src.flight.airline, departure := src.flight.departure,
    arrival := src.flight.arrival, duration := src.flight.duration,
    buy_link := src.flight.buy_link }

/-- The assembly loop (logic.py, lines 620–699): drop branches with an
absent return leg, drop totals over budget, and build the itinerary record
(with our typed inputs the Pydantic validation cannot fail, so that `except`
branch is dead).  Returns
`(itineraries, final_budget_pruned, step3_missing_return)`. -/
def assemble_itins (nro : Option String) (max_budget : Option ℚ) :
    List (ReturnTask × Option FetchResult) → List ItineraryModel × Nat × Nat
  | [] => ([], 0, 0)
  | (_, none) :: rest =>
    let (its, pr, ms) := assemble_itins nro max_budget rest
    (its, pr, ms + 1)
  | (t, some ret) :: rest =>
    let (its, pr, ms) := assemble_itins nro max_budget rest
    let orig := t.cand_a.search_origin
    let ret_dest := nro.getD orig
    let total := (t.cand_a.quote.numeric_price.add t.cand_b.numeric_price).add
      ret.numeric_price
    if budgetExceeded max_budget total then (its, pr + 1, ms)
    else
      let it : ItineraryModel :=
        { total_price := total, origin := orig, return_destination := ret_dest,
          legs := [itinerary_leg_of orig t.cand_a.quote.destination t.cand_a.quote,
                   itinerary_leg_of t.cand_a.quote.destination t.cand_b.destination t.cand_b,
                   itinerary_leg_of t.cand_b.destination ret_dest ret],
          cached := t.cand_a.quote.cached || t.cand_b.cached || ret.cached,
          warning := airport_change_warning t.cand_a.quote.destination t.cand_b.origin
            t.cand_b.destination ret_dest }
      (it :: its, pr, ms)

/-- The per-run stage statistics (logic.py, lines 482–492). -/
structure OdysseyStats where
  step1_candidates : Nat
  step1_budget_pruned : Nat
  step2_tasks : Nat
  step2_candidates : Nat
  step3_return_tasks : Nat
  step3_budget_pruned : Nat
  step3_missing_return : Nat
  final_budget_pruned : Nat
  final_itineraries : Nat
deriving DecidableEq, Repr

/-- The payload of the odyssey search: a top-level error dictionary, or the
itineraries plus (in debug mode) the stage statistics. -/
inductive OdysseyOut where
  | err (msg : String)
  | ok (itineraries : List ItineraryModel) (debug_stats : Option OdysseyStats)
deriving DecidableEq, Repr

/-- `find_cheapest_two_city_itinerary_logic` (logic.py): the full three-leg
branch-and-bound search. -/
def find_cheapest_two_city_itinerary_logic (provider : Provider) (cache : CacheF) (now : ℚ)
    (origin : OriginInput) (start_date : String) (stay_days_1 : StayInput := .fixed 2)
    (stay_days_2 : StayInput := .fixed 2) (region : String := "Europe")
    (limit_per_leg : Nat := 15) (excluded_countries : Option (List String) := none)
    (excluded_airports : Option (List String) := none) (max_itineraries : Nat := 30)
    (force_different_countries : Bool := false) (direct_only : Bool := false)
    (return_origin : Option String := none)
    (include_airlines : Option (List String) := none)
    (exclude_airlines : Option (List String) := none)
    (max_budget : Option ℚ := none) (debug : Bool := false) : OdysseyOut :=
  match odyssey_validate origin start_date stay_days_1 stay_days_2 return_origin with
  | none => .err "Invalid start_date or stay_days format."
  | some cfg =>
    let (sweep, cache1) := odyssey_sweep provider now cfg.date_1 region limit_per_leg
      force_different_countries excluded_countries excluded_airports direct_only
      include_airlines exclude_airlines cache cfg.origins
    let (all_candidates_a, step1_pruned) := step1_collect max_budget limit_per_leg sweep
    if all_candidates_a.isEmpty then .err "No candidates found from any origin."
    else
      let sorted_a := all_candidates_a.insertionSort
        (fun a b => a.quote.numeric_price.le b.quote.numeric_price = true)
      let candidates_a := sorted_a.take (limit_per_leg * cfg.origins.length)
      let (meta, cache2) := odyssey_step2 provider now cfg.dt_start region limit_per_leg
        force_different_countries excluded_countries excluded_airports direct_only
        include_airlines exclude_airlines cfg.stay1_range cache1 candidates_a
      let (tasks, step2_cands, step3_pruned) := step3_plan cfg.origins
        cfg.normalized_return_origin direct_only include_airlines exclude_airlines
        cfg.dt_start max_budget cfg.stay2_range meta
      let (completed, _) := run_return_fetches provider now cache2 tasks
      let (itins, final_pruned, missing) := assemble_itins cfg.normalized_return_origin
        max_budget completed
      let final := (itins.insertionSort (fun a b => a.total_price.le b.total_price = true)).take
        max_itineraries
      let stats : OdysseyStats :=
        { step1_candidates := all_candidates_a.length, step1_budget_pruned := step1_pruned,
          step2_tasks := meta.length, step2_candidates := step2_cands,
          step3_return_tasks := tasks.length, step3_budget_pruned := step3_pruned,
          step3_missing_return := missing, final_budget_pruned := final_pruned,
          final_itineraries := final.length }
      .ok final (if debug then some stats else none)

/-! ## Shared sample data and auxiliary predicates used by the proofs -/

/-- An empty cache store. -/
def emptyCache : CacheF := fun _ => none

/-- A sample flight payload (with a non-falsy `buy_link`). -/
def sampleFlight : Flight :=
  { is_best := none, name := some "TestAir", departure := some "6:30 AM",
    arrival := some "9:00 AM", arrival_time_ahead := none, duration := some "2 hr 30 min",
    stops := 0, delay := none, price := some "100", airline := some "TestAir",
    buy_link := some "https://example.test/buy" }

/-- A sample fetch result. -/
def sampleResult : FetchResult :=
  { destination := "SYD", origin := "LYS", date := "2026-04-19", price := "100",
    numeric_price := .fin 100, flight := sampleFlight, cached := false }

/-- A sample raw provider offer with the given price string. -/
def sampleOffer (price : String) : RawOffer :=
  { is_best := none, name := some "TestAir", departure := some "6:30 AM",
    arrival := some "9:00 AM", arrival_time_ahead := none, duration := some "2 hr 30 min",
    stops := .int 0, delay := none, price := some price }

/-- A provider that always fails with a non-timeout error. -/
def offlineProvider : Provider := fun _ _ => .raise "offline"

/-- A cache entry for the C10 witness: a one-stop flight. -/
def oneStopEntry : CacheEntry :=
  { price_str := "100", numeric_price := .fin 100,
    flight := { sampleFlight with stops := 1 }, timestamp := 0 }

/-- A cache holding `oneStopEntry` under the LYS→SYD key. -/
def oneStopCache : CacheF :=
  fun k => if k = cache_key "LYS" "SYD" "2026-04-19" 1 "economy" then some oneStopEntry
    else none

/-- A basic-mode leg departing exactly at midnight. -/
def midnightLeg : Leg :=
  { origin := "LYS", destination := "SYD", date := "2026-04-19", price := "10",
    numeric_price := .fin 10, stops := 0, carrier := some "TestAir",
    departure := some "12:00 AM", arrival := some "6:00 AM",
    duration := some "6 hr", buy_link := none }

/-- A basic-mode leg departing at 1:00 AM. -/
def oneAmLeg : Leg := { midnightLeg with departure := some "1:00 AM" }

/-- A result whose first leg departs at midnight (parsed 0 minutes). -/
def midnightResult : BasicResult := { total_price := .fin 10, legs := [midnightLeg] }

/-- A result whose first leg departs at 1:00 AM (parsed 60 minutes). -/
def oneAmResult : BasicResult := { total_price := .fin 10, legs := [oneAmLeg] }

/-- A Stage-1 candidate for the C1 witness (LYS → SYD at 100). -/
def wCandA : CandA := { quote := sampleResult, search_origin := "LYS" }

/-- A Stage-2 candidate for the C1 witness (→ MEL at 50). -/
def wCandB : FetchResult :=
  { sampleResult with destination := "MEL", origin := "SYD", numeric_price := .fin 50 }

/-- A provider that answers only queries departing LYS; every other query
returns a falsy (empty) provider result. -/
def step1OnlyProvider : Provider := fun pq _ =>
  if pq.origin == "LYS" then .ok (some [sampleOffer "100"]) else .ok none

/-- A provider answer carrying the recognized timeout signature. -/
def timeoutMsg : String := "Timeout error in wait_for"

/-- A provider that fails with the timeout signature on the first two
attempts and with a terminal error afterwards. -/
def flakyProvider : Provider := fun _ attempt =>
  if attempt < 2 then .raise timeoutMsg else .raise "boom"

/-- A sample fetch query. -/
def sampleQuery : FetchQuery := { origin := "LYS", dest := "SYD", date := "2026-04-19" }

/-- Offers for the C7 witness: a dearer offer, the sentinel, and two tied
cheapest offers (the first of which must win). -/
def wOffers : List RawOffer :=
  [sampleOffer "100", sampleOffer "Unavailable",
   { sampleOffer "50" with name := some "CheapAir" },
   { sampleOffer "50" with name := some "OtherAir" }]

/-- A provider whose only offer is valid. -/
def goodProvider : Provider := fun _ _ => .ok (some [sampleOffer "100"])

/-- Well-formedness of the cache store: every entry holds a valid (positive,
finite) numeric price and a display price that is not the `"Unavailable"`
sentinel.  Every entry the system itself writes satisfies this (see below);
`init_cache` additionally purges rows with invalid numeric prices on
start-up. -/
def CacheWF (c : CacheF) : Prop :=
  ∀ k e, c k = some e → is_valid_price e.numeric_price = true ∧ e.price_str ≠ "Unavailable"

/-! ## Order lemmas for `PyFloat` -/

theorem PyFloat.le_refl (a : PyFloat) : a.le a = true := by
  cases a <;> simp [PyFloat.le]

theorem PyFloat.le_trans {a b c : PyFloat} (h1 : a.le b = true) (h2 : b.le c = true) :
    a.le c = true := by
  cases a <;> cases b <;> cases c <;> simp_all [PyFloat.le] <;> linarith

theorem PyFloat.le_total (a b : PyFloat) : (a.le b || b.le a) = true := by
  cases a <;> cases b <;> simp [PyFloat.le]
  exact LinearOrder.le_total _ _

theorem PyFloat.le_of_not_lt {a b : PyFloat} (h : b.lt a = false) : a.le b = true := by
  cases a <;> cases b <;> simp_all [PyFloat.le, PyFloat.lt] <;> linarith

theorem PyFloat.lt_of_lt_of_le {a b c : PyFloat} (h1 : a.lt b = true) (h2 : b.le c = true) :
    a.lt c = true := by
  cases a <;> cases b <;> cases c <;> simp_all [PyFloat.le, PyFloat.lt] <;> linarith

theorem PyFloat.ltQ_eq_not_geQ (p : PyFloat) (b : ℚ) : p.ltQ b = !(p.geQ b) := by
  cases p with
  | fin q =>
    simp only [PyFloat.ltQ, PyFloat.geQ, PyFloat.lt, PyFloat.le]
    rcases le_or_lt b q with h | h
    · simp [h, not_lt.mpr h]
    · simp [h, not_le.mpr h]
  | inf => simp [PyFloat.ltQ, PyFloat.geQ, PyFloat.lt, PyFloat.le]

theorem PyFloat.leQ_eq_not_gtQ (p : PyFloat) (b : ℚ) : p.leQ b = !(p.gtQ b) := by
  cases p with
  | fin q =>
    simp only [PyFloat.leQ, PyFloat.gtQ, PyFloat.lt, PyFloat.le]
    rcases le_or_lt q b with h | h
    · simp [h, not_lt.mpr h]
    · simp [not_le.mpr h, h]
  | inf => simp [PyFloat.leQ, PyFloat.gtQ, PyFloat.lt, PyFloat.le]

/-! ## C6 — cache TTL round trip -/

/-- **C6**: storing a quote with `set_cached_flight` and reading the same
key with `get_cached_flight` strictly less than `CACHE_TTL` (6 hours) after
insertion returns exactly that quote (as a `cached: True` result; the
stored `buy_link` is passed through untouched since it is non-falsy);
reading once the TTL has elapsed (`now - timestamp >= CACHE_TTL`) returns
absent, while the expired row is still present in the store — the read
models a SQLite `SELECT` and performs no eviction. -/
theorem cache_put_get_ttl (cache : CacheF) (origin dest date : String) (adults : Nat)
    (seat_type : String) (r : FetchResult) (t_put t_get : ℚ)
    (hb : pyFalsyStr r.flight.buy_link = false) :
    (t_get - t_put < CACHE_TTL →
      get_cached_flight (set_cached_flight cache t_put origin dest date adults seat_type r)
          t_get origin dest date adults seat_type =
        some { destination := dest, origin := origin, date := date, price := r.price,
               numeric_price := r.numeric_price, flight := r.flight, cached := true }) ∧
    (CACHE_TTL ≤ t_get - t_put →
      get_cached_flight (set_cached_flight cache t_put origin dest date adults seat_type r)
          t_get origin dest date adults seat_type = none ∧
      set_cached_flight cache t_put origin dest date adults seat_type r
          (cache_key origin dest date adults seat_type) =
        some { price_str := r.price, numeric_price := r.numeric_price, flight := r.flight,
               timestamp := t_put }) := by
  refine ⟨fun h => ?_, fun h => ⟨?_, ?_⟩⟩
  · simp [get_cached_flight, set_cached_flight, h, hb]
  · simp [get_cached_flight, set_cached_flight, not_lt.mpr h]
  · simp [set_cached_flight]

/-- Witness for C6 at a concrete store, key, quote and pair of read times. -/
theorem cache_put_get_ttl_witness :
    pyFalsyStr sampleResult.flight.buy_link = false ∧
    get_cached_flight
        (set_cached_flight emptyCache 0 "LYS" "SYD" "2026-04-19" 1 "economy" sampleResult)
        100 "LYS" "SYD" "2026-04-19" 1 "economy" =
      some { destination := "SYD", origin := "LYS", date := "2026-04-19",
             price := sampleResult.price, numeric_price := sampleResult.numeric_price,
             flight := sampleResult.flight, cached := true } ∧
    get_cached_flight
        (set_cached_flight emptyCache 0 "LYS" "SYD" "2026-04-19" 1 "economy" sampleResult)
        21600 "LYS" "SYD" "2026-04-19" 1 "economy" = none :=
  ⟨by decide,
   (cache_put_get_ttl emptyCache "LYS" "SYD" "2026-04-19" 1 "economy" sampleResult 0 100
      (by decide)).1 (by norm_num [CACHE_TTL]),
   ((cache_put_get_ttl emptyCache "LYS" "SYD" "2026-04-19" 1 "economy" sampleResult 0 21600
      (by decide)).2 (by norm_num [CACHE_TTL])).1⟩

/-! ## C10 — a filter-rejected cache hit suppresses the fetch -/

/-- **C10**: when the cache holds an unexpired entry with a valid price for
the normalized route key but the cached quote fails the current call's
direct-only or airline include/exclude filter, `async_fetch_cheapest`
returns absent without making any provider call and without registering
in-flight work. -/
theorem cache_hit_filter_rejection (provider : Provider) (cache : CacheF) (now : ℚ)
    (q : FetchQuery) (infl : Bool) (retry : Nat) (base : ℚ) (e : CacheEntry)
    (hkey : cache (cache_key (pyUpper q.origin) (pyUpper q.dest) q.date q.adults q.seat_type) =
      some e)
    (hfresh : now - e.timestamp < CACHE_TTL)
    (hvalid : is_valid_price e.numeric_price = true)
    (hrej : (q.direct_only = true ∧ e.flight.stops ≠ 0) ∨
        (pyTruthyList q.include_airlines = true ∧
          airlineMem e.flight.airline q.include_airlines = false) ∨
        (pyTruthyList q.exclude_airlines = true ∧
          airlineMem e.flight.airline q.exclude_airlines = true)) :
    (async_fetch_cheapest provider cache now q infl retry base).result = none ∧
    (async_fetch_cheapest provider cache now q infl retry base).provider_calls = 0 ∧
    (async_fetch_cheapest provider cache now q infl retry base).registered_inflight = false := by
  have hget : get_cached_flight cache now (pyUpper q.origin) (pyUpper q.dest) q.date q.adults
      q.seat_type =
      some { destination := pyUpper q.dest, origin := pyUpper q.origin, date := q.date,
             price := e.price_str, numeric_price := e.numeric_price,
             flight := (if pyFalsyStr e.flight.buy_link then
                 { e.flight with buy_link := some (build_google_flights_link (pyUpper q.origin)
                     (pyUpper q.dest) q.date) }
               else e.flight), cached := true } := by
    simp only [get_cached_flight, hkey, if_pos hfresh]
  have hstops : (if pyFalsyStr e.flight.buy_link then
      { e.flight with buy_link := some (build_google_flights_link (pyUpper q.origin)
          (pyUpper q.dest) q.date) } else e.flight).stops = e.flight.stops := by
    split <;> rfl
  have hair : (if pyFalsyStr e.flight.buy_link then
      { e.flight with buy_link := some (build_google_flights_link (pyUpper q.origin)
          (pyUpper q.dest) q.date) } else e.flight).airline = e.flight.airline := by
    split <;> rfl
  have hout : async_fetch_cheapest provider cache now q infl retry base =
      { result := none, cache := cache, provider_calls := 0, sleeps := [],
        registered_inflight := false } := by
    simp only [async_fetch_cheapest, hget, hvalid, Bool.not_true, Bool.false_eq_true,
      if_false, hstops, hair]
    split_ifs with h1 h2 h3 <;> first
      | rfl
      | (exfalso
         rcases hrej with ⟨hd, hs⟩ | ⟨hi, hm⟩ | ⟨he, hm⟩
         · exact h1 (by simp [hd, beq_iff_eq, hs])
         · exact h2 (by simp [hi, hm])
         · exact h3 (by simp [he, hm]))
  rw [hout]
  exact ⟨rfl, rfl, rfl⟩

/-- Witness for C10: a direct-only call against a cached one-stop quote is
answered absent with zero provider calls and no in-flight registration. -/
theorem cache_hit_filter_rejection_witness :
    (async_fetch_cheapest offlineProvider oneStopCache 10
        { origin := "LYS", dest := "SYD", date := "2026-04-19", direct_only := true }
        true 2 (3 / 4)).result = none ∧
    (async_fetch_cheapest offlineProvider oneStopCache 10
        { origin := "LYS", dest := "SYD", date := "2026-04-19", direct_only := true }
        true 2 (3 / 4)).provider_calls = 0 ∧
    (async_fetch_cheapest offlineProvider oneStopCache 10
        { origin := "LYS", dest := "SYD", date := "2026-04-19", direct_only := true }
        true 2 (3 / 4)).registered_inflight = false :=
  cache_hit_filter_rejection offlineProvider oneStopCache 10
    { origin := "LYS", dest := "SYD", date := "2026-04-19", direct_only := true }
    true 2 (3 / 4) oneStopEntry (by decide) (by norm_num [oneStopEntry, CACHE_TTL])
    (by decide) (Or.inl ⟨rfl, by decide⟩)

/-! ## C8 — configuration errors -/

/-- **C8** (amended): a malformed start date makes the odyssey search
short-circuit with the top-level error payload, and an empty filtered
destination set makes the destination exploration (used by odyssey Stage 1)
return the top-level error payload.  (The anywhere mode, by contrast,
swallows that error — see the counterexample.) -/
theorem config_error_short_circuit :
    (∀ (provider : Provider) (cache : CacheF) (now : ℚ) (origin : OriginInput)
        (start_date : String) (s1 s2 : StayInput) (region : String) (limit : Nat)
        (ec ea : Option (List String)) (mi : Nat) (force d : Bool) (ro : Option String)
        (incl excl : Option (List String)) (mb : Option ℚ) (dbg : Bool),
        parse_date start_date = none →
        find_cheapest_two_city_itinerary_logic provider cache now origin start_date s1 s2
            region limit ec ea mi force d ro incl excl mb dbg =
          .err "Invalid start_date or stay_days format.") ∧
    (∀ (provider : Provider) (cache : CacheF) (now : ℚ) (origin date region : String)
        (limit adults : Nat) (seat : String) (ec ea : Option (List String)) (d : Bool)
        (incl excl : Option (List String)),
        get_airports_excluding region ec ea = [] →
        (get_cheapest_destinations_logic provider cache now origin date region limit adults
            seat ec ea d incl excl).1 = .err "No airports matching filters.") := by
  constructor
  · intro provider cache now origin start_date s1 s2 region limit ec ea mi force d ro incl
      excl mb dbg h
    simp [find_cheapest_two_city_itinerary_logic, odyssey_validate, h]
  · intro provider cache now origin date region limit adults seat ec ea d incl excl h
    simp [get_cheapest_destinations_logic, h]

/-- Witness for C8: a concrete malformed date and a concrete region with an
empty destination set. -/
theorem config_error_short_circuit_witness :
    find_cheapest_two_city_itinerary_logic offlineProvider emptyCache 0 (.one "LYS")
        "not-a-date" (.fixed 2) (.fixed 2) "Europe" 15 none none 30 false false none none
        none none false = .err "Invalid start_date or stay_days format." ∧
    (get_cheapest_destinations_logic offlineProvider emptyCache 0 "LYS" "2026-04-19"
        "Nowhere" 15 1 "economy" none none false none none).1 =
      .err "No airports matching filters." :=
  ⟨config_error_short_circuit.1 offlineProvider emptyCache 0 (.one "LYS") "not-a-date"
      (.fixed 2) (.fixed 2) "Europe" 15 none none 30 false false none none none none false
      (by decide),
   config_error_short_circuit.2 offlineProvider emptyCache 0 "LYS" "2026-04-19" "Nowhere"
      15 1 "economy" none none false none none (by decide)⟩

/-- Counterexample for **C8 as stated**: the anywhere mode is a search
invocation whose destination set is empty after filters (region
`"Nowhere"` resolves to no airports), yet it returns the empty-result
payload `{"mode": "anywhere", "results": []}` — not a top-level error
result (its payload type has no error shape at all): the destination
exploration's error dictionary is skipped by the date loop and turned into
an empty result list. -/
theorem anywhere_config_error_counterexample :
    get_airports_excluding "Nowhere" none none = [] ∧
    find_anywhere_flights_logic offlineProvider emptyCache 0 "LYS" "2026-04-19" "Nowhere" =
      some { mode := "anywhere", results := [], no_result_hint := none } := by
  constructor
  · decide
  · decide

/-! ## C9 — the `departure` sort key -/

/-- Counterexample for **C9 as stated**: `"12:00 AM"` parses successfully to
0 minutes, but because the sort key is `parse_clock_minutes(...) or 10**9`
and `0` is falsy in Python, the midnight result is keyed `10^9` and sorted
*after* the 1:00 AM result instead of by its actual parsed value. -/
theorem departure_sort_midnight_counterexample :
    parse_clock_minutes (some "12:00 AM") = some 0 ∧
    sort_basic_results [midnightResult, oneAmResult] "departure" =
      [oneAmResult, midnightResult] := by
  constructor
  · decide
  · decide

/-- **C9** (amended): the `departure` sort orders results ascending by the
key `parse_clock_minutes(first leg departure) or 10**9`: a result whose
first-leg departure is missing, unparseable, **or parses to exactly 0
minutes (midnight, falsy in Python)** is keyed worst-case `10^9`; any other
successfully parsed departure sorts by its actual parsed minutes value. -/
theorem departure_sort_spec (results : List BasicResult) :
    List.Perm (sort_basic_results results "departure") results ∧
    List.Pairwise (fun a b => departure_key a ≤ departure_key b)
      (sort_basic_results results "departure") ∧
    (∀ x m, parse_clock_minutes (first_leg_departure x) = some m → m ≠ 0 →
      departure_key x = m) ∧
    (∀ x, parse_clock_minutes (first_leg_departure x) = none ∨
        parse_clock_minutes (first_leg_departure x) = some 0 →
      departure_key x = 10 ^ 9) := by
  have hbr : sort_basic_results results "departure" =
      results.insertionSort (fun a b => departure_key a ≤ departure_key b) := rfl
  haveI : IsTotal BasicResult (fun a b => departure_key a ≤ departure_key b) :=
    ⟨fun a b => Nat.le_total _ _⟩
  haveI : IsTrans BasicResult (fun a b => departure_key a ≤ departure_key b) :=
    ⟨fun _ _ _ h1 h2 => Nat.le_trans h1 h2⟩
  refine ⟨?_, ?_, ?_, ?_⟩
  · rw [hbr]; exact List.perm_insertionSort _ results
  · rw [hbr]
    exact List.sorted_insertionSort _ results
  · intro x m hm hnz
    simp [departure_key, hm, pyOrNat, hnz]
  · intro x hx
    rcases hx with h | h <;> simp [departure_key, h, pyOrNat]

/-- Witness for C9: the sorted concrete list is ordered by the key, and a
parsed non-midnight departure keeps its parsed value as key. -/
theorem departure_sort_spec_witness :
    List.Pairwise (fun a b => departure_key a ≤ departure_key b)
      (sort_basic_results [midnightResult, oneAmResult] "departure") ∧
    departure_key oneAmResult = 60 :=
  ⟨(departure_sort_spec [midnightResult, oneAmResult]).2.1,
   (departure_sort_spec []).2.2.1 oneAmResult 60 (by decide) (by decide)⟩

/-! ## C1 — the Step-3 budget early exit -/

theorem mem_step3_s2_loop {d : Bool} {incl excl : Option (List String)} {dt : PyDate}
    {mb : Option ℚ} {ca : CandA} {s1 : Int} {cb : FetchResult} {rd : String}
    {l : List Int} {t : ReturnTask} :
    t ∈ (step3_s2_loop d incl excl dt mb ca s1 cb rd l).1 ↔
      ∃ s2 ∈ l, budgetReached mb (ca.quote.numeric_price.add cb.numeric_price) = false ∧
        t = { cand_a := ca, cand_b := cb,
              query := { origin := cb.destination, dest := rd,
                         date := formatDate (addDays dt (s1 + s2)),
                         direct_only := d, include_airlines := incl,
                         exclude_airlines := excl } } := by
  induction l with
  | nil => simp [step3_s2_loop]
  | cons s2 rest ih =>
    by_cases hb : budgetReached mb (ca.quote.numeric_price.add cb.numeric_price) = true
    · simp only [step3_s2_loop, hb, if_true]
      simp only [ih]
      simp [hb]
    · have hb' : budgetReached mb (ca.quote.numeric_price.add cb.numeric_price) = false :=
        Bool.eq_false_iff.mpr hb
      simp [step3_s2_loop, hb', ih]

theorem mem_step3_b_loop {origins : List String} {nro : Option String} {d : Bool}
    {incl excl : Option (List String)} {dt : PyDate} {mb : Option ℚ} {stay2 : List Int}
    {ca : CandA} {s1 : Int} {cbs : List FetchResult} {t : ReturnTask} :
    t ∈ (step3_b_loop origins nro d incl excl dt mb stay2 ca s1 cbs).1 ↔
      ∃ cb ∈ cbs,
        (origins.contains cb.destination || cb.destination == ca.quote.destination) = false ∧
        t ∈ (step3_s2_loop d incl excl dt mb ca s1 cb (nro.getD ca.search_origin) stay2).1 := by
  induction cbs with
  | nil => simp [step3_b_loop]
  | cons cb rest ih =>
    by_cases hdeg : (origins.contains cb.destination ||
        cb.destination == ca.quote.destination) = true
    · simp only [step3_b_loop, hdeg, if_true]
      simp only [ih]
      constructor
      · rintro ⟨cb', h1, h2, h3⟩
        exact ⟨cb', List.mem_cons_of_mem _ h1, h2, h3⟩
      · rintro ⟨cb', h1, h2, h3⟩
        rcases List.mem_cons.mp h1 with rfl | h1
        · rw [hdeg] at h2; cases h2
        · exact ⟨cb', h1, h2, h3⟩
    · have hdeg' : (origins.contains cb.destination ||
          cb.destination == ca.quote.destination) = false := Bool.eq_false_iff.mpr hdeg
      simp [step3_b_loop, hdeg', ih]
      aesop

theorem mem_step3_plan {origins : List String} {nro : Option String} {d : Bool}
    {incl excl : Option (List String)} {dt : PyDate} {mb : Option ℚ} {stay2 : List Int}
    {meta : List (CandA × Int × DestOut)} {t : ReturnTask} :
    t ∈ (step3_plan origins nro d incl excl dt mb stay2 meta).1 ↔
      ∃ ca s1 o dd opts, (ca, s1, DestOut.ok o dd opts) ∈ meta ∧
        t ∈ (step3_b_loop origins nro d incl excl dt mb stay2 ca s1 opts).1 := by
  induction meta with
  | nil => simp [step3_plan]
  | cons e rest ih =>
    obtain ⟨ca, s1, res⟩ := e
    cases res with
    | err m =>
      simp only [step3_plan, ih]
      constructor
      · rintro ⟨ca', s1', o, dd, opts, h1, h2⟩
        exact ⟨ca', s1', o, dd, opts, List.mem_cons_of_mem _ h1, h2⟩
      · rintro ⟨ca', s1', o, dd, opts, h1, h2⟩
        rcases List.mem_cons.mp h1 with heq | h1
        · cases heq
        · exact ⟨ca', s1', o, dd, opts, h1, h2⟩
    | ok o dd opts =>
      simp only [step3_plan, List.mem_append, ih]
      constructor
      · rintro (h | ⟨ca', s1', o', dd', opts', h1, h2⟩)
        · exact ⟨ca, s1, o, dd, opts, List.mem_cons_self _ _, h⟩
        · exact ⟨ca', s1', o', dd', opts', List.mem_cons_of_mem _ h1, h2⟩
      · rintro ⟨ca', s1', o', dd', opts', h1, h2⟩
        rcases List.mem_cons.mp h1 with heq | h1
        · injection heq with h3 h4
          injection h4 with h5 h6
          cases h3; cases h5
          cases h6
          exact Or.inl h2
        · exact Or.inr ⟨ca', s1', o', dd', opts', h1, h2⟩

/-- **C1**: in the Step-3 planning of the odyssey search with a configured
positive budget `b`, (i) every planned return fetch belongs to a branch
whose leg-1 plus leg-2 price is strictly below `b` — so for a surviving
Stage-2 branch with two-leg sum at or above the budget no return fetch is
created and the provider is never contacted for its return leg — and (ii)
for every surviving branch (City B distinct from the origins and from City
A) with two-leg sum strictly below `b`, the return-leg fetch for each
stay-2 length IS planned. -/
theorem step3_early_exit (origins : List String) (nro : Option String) (direct_only : Bool)
    (incl excl : Option (List String)) (dt_start : PyDate) (b : ℚ) (stay2 : List Int)
    (meta : List (CandA × Int × DestOut)) (hb : 0 < b) :
    (∀ t ∈ (step3_plan origins nro direct_only incl excl dt_start (some b) stay2 meta).1,
        (t.cand_a.quote.numeric_price.add t.cand_b.numeric_price).ltQ b = true) ∧
    (∀ (ca : CandA) (s1 : Int) (o dd : String) (opts : List FetchResult) (cb : FetchResult)
        (s2 : Int), (ca, s1, DestOut.ok o dd opts) ∈ meta → cb ∈ opts →
        origins.contains cb.destination = false →
        (cb.destination == ca.quote.destination) = false → s2 ∈ stay2 →
        (ca.quote.numeric_price.add cb.numeric_price).ltQ b = true →
        ({ cand_a := ca, cand_b := cb,
           query := { origin := cb.destination, dest := nro.getD ca.search_origin,
                      date := formatDate (addDays dt_start (s1 + s2)),
                      direct_only := direct_only, include_airlines := incl,
                      exclude_airlines := excl } } : ReturnTask) ∈
          (step3_plan origins nro direct_only incl excl dt_start (some b) stay2 meta).1) := by
  have hbne : (b == 0) = false := by
    simp [hb.ne']
  have hreach : ∀ p : PyFloat, budgetReached (some b) p = false ↔ p.ltQ b = true := by
    intro p
    rw [PyFloat.ltQ_eq_not_geQ]
    simp [budgetReached, hbne]
  constructor
  · intro t ht
    rw [mem_step3_plan] at ht
    obtain ⟨ca, s1, o, dd, opts, _, hbl⟩ := ht
    rw [mem_step3_b_loop] at hbl
    obtain ⟨cb, _, _, hsl⟩ := hbl
    rw [mem_step3_s2_loop] at hsl
    obtain ⟨s2, _, hcond, rfl⟩ := hsl
    exact (hreach _).mp hcond
  · intro ca s1 o dd opts cb s2 hmeta hcb hc1 hc2 hs2 hlt
    rw [mem_step3_plan]
    refine ⟨ca, s1, o, dd, opts, hmeta, ?_⟩
    rw [mem_step3_b_loop]
    refine ⟨cb, hcb, by rw [hc1, hc2]; rfl, ?_⟩
    rw [mem_step3_s2_loop]
    exact ⟨s2, hs2, (hreach _).mpr hlt, rfl⟩

/-- Witness for C1: with budget 200 the branch LYS→SYD (100) → MEL (50) has
two-leg sum 150 < 200 and its return fetch is planned. -/
theorem step3_early_exit_witness :
    ({ cand_a := wCandA, cand_b := wCandB,
       query := { origin := wCandB.destination, dest := (none : Option String).getD
                    wCandA.search_origin,
                  date := formatDate (addDays ⟨2026, 4, 19⟩ (2 + 2)),
                  direct_only := false, include_airlines := none,
                  exclude_airlines := none } } : ReturnTask) ∈
      (step3_plan ["LYS"] none false none none ⟨2026, 4, 19⟩ (some 200) [2]
        [(wCandA, 2, DestOut.ok "SYD" "2026-04-21" [wCandB])]).1 :=
  (step3_early_exit ["LYS"] none false none none ⟨2026, 4, 19⟩ 200 [2]
      [(wCandA, 2, DestOut.ok "SYD" "2026-04-21" [wCandB])] (by norm_num)).2
    wCandA 2 "SYD" "2026-04-21" [wCandB] wCandB 2 (by decide) (by decide) (by decide)
    (by decide) (by decide)
    (by norm_num [wCandA, wCandB, sampleResult, PyFloat.ltQ, PyFloat.lt, PyFloat.add])

/-! ## C2 — the final budget prune -/

theorem assemble_itins_budget {nro : Option String} {b : ℚ} (hb : 0 < b)
    (entries : List (ReturnTask × Option FetchResult)) :
    ∀ it ∈ (assemble_itins nro (some b) entries).1, it.total_price.leQ b = true := by
  have hbne : (b == 0) = false := by simp [hb.ne']
  induction entries with
  | nil => simp [assemble_itins]
  | cons e rest ih =>
    obtain ⟨t, r⟩ := e
    intro it hit
    cases r with
    | none =>
      simp only [assemble_itins] at hit
      rcases hrec : assemble_itins nro (some b) rest with ⟨its, pr, ms⟩
      rw [hrec] at hit
      apply ih
      rw [hrec]
      exact hit
    | some ret =>
      simp only [assemble_itins] at hit
      rcases hrec : assemble_itins nro (some b) rest with ⟨its, pr, ms⟩
      rw [hrec] at hit
      have ih' : ∀ x ∈ its, x.total_price.leQ b = true := by
        intro x hx
        apply ih
        rw [hrec]
        exact hx
      by_cases hex : budgetExceeded (some b)
          ((t.cand_a.quote.numeric_price.add t.cand_b.numeric_price).add
            ret.numeric_price) = true
      · rw [if_pos hex] at hit
        exact ih' it hit
      · have hex' := Bool.eq_false_iff.mpr hex
        rw [if_neg (by simp [hex'])] at hit
        rcases List.mem_cons.mp hit with rfl | hit
        · show PyFloat.leQ _ b = true
          rw [PyFloat.leQ_eq_not_gtQ]
          simp only [budgetExceeded, hbne, Bool.not_eq_true', Bool.and_eq_false_imp] at hex'
          simp [hex']
        · exact ih' it hit

/-- **C2**: every itinerary in the result list of a completed odyssey search
run configured with a positive budget `b` has `total_price` (the sum of its
three legs' numeric prices, computed at assembly) at most `b`: itineraries
whose three-leg total exceeds the budget are dropped by the final prune
before output. -/
theorem odyssey_budget_invariant (provider : Provider) (cache : CacheF) (now : ℚ)
    (origin : OriginInput) (start_date : String) (s1 s2 : StayInput) (region : String)
    (limit : Nat) (ec ea : Option (List String)) (mi : Nat) (force d : Bool)
    (ro : Option String) (incl excl : Option (List String)) (dbg : Bool) (b : ℚ)
    (hb : 0 < b) (its : List ItineraryModel) (st : Option OdysseyStats)
    (hout : find_cheapest_two_city_itinerary_logic provider cache now origin start_date s1
      s2 region limit ec ea mi force d ro incl excl (some b) dbg = .ok its st) :
    ∀ it ∈ its, it.total_price.leQ b = true := by
  intro it hit
  unfold find_cheapest_two_city_itinerary_logic at hout
  rcases hv : odyssey_validate origin start_date s1 s2 ro with _ | cfg
  · rw [hv] at hout; cases hout
  · rw [hv] at hout
    simp only at hout
    rcases hsweep : odyssey_sweep provider now cfg.date_1 region limit force ec ea d incl
      excl cache cfg.origins with ⟨sweep, cache1⟩
    rw [hsweep] at hout
    rcases hcol : step1_collect (some b) limit sweep with ⟨cands, pr1⟩
    rw [hcol] at hout
    by_cases hemp : cands.isEmpty
    · rw [if_pos hemp] at hout; cases hout
    · rw [if_neg hemp] at hout
      simp only at hout
      rcases hst2 : odyssey_step2 provider now cfg.dt_start region limit force ec ea d incl
        excl cfg.stay1_range cache1
        ((cands.insertionSort
          (fun a b => a.quote.numeric_price.le b.quote.numeric_price = true)).take
          (limit * cfg.origins.length)) with ⟨meta, cache2⟩
      rw [hst2] at hout
      rcases hpl : step3_plan cfg.origins cfg.normalized_return_origin d incl excl
        cfg.dt_start (some b) cfg.stay2_range meta with ⟨tasks, c2, pr3⟩
      rw [hpl] at hout
      rcases hrun : run_return_fetches provider now cache2 tasks with ⟨completed, cache3⟩
      rw [hrun] at hout
      rcases hasm : assemble_itins cfg.normalized_return_origin (some b) completed with
        ⟨itins, fpr, ms⟩
      rw [hasm] at hout
      simp only [OdysseyOut.ok.injEq] at hout
      obtain ⟨hits, -⟩ := hout
      subst hits
      have hmem : it ∈ itins := by
        have h1 : it ∈ itins.insertionSort (fun a b => a.total_price.le b.total_price = true) :=
          List.take_subset _ _ hit
        exact ((List.perm_insertionSort _ itins).mem_iff).mp h1
      have := assemble_itins_budget hb completed it (by rw [hasm]; exact hmem)
      exact this

/-- Witness for C2: a concrete completed run with budget 250 (its Stage-2
branches find no onward quotes, so the search completes with an empty —
hence trivially budget-respecting — result list). -/
theorem odyssey_budget_invariant_witness :
    find_cheapest_two_city_itinerary_logic step1OnlyProvider emptyCache 0 (.one "LYS")
        "2026-04-19" (.fixed 2) (.fixed 2) "Oceania" 1 none none 30 false false none none
        none (some 250) false = .ok [] none ∧
    (∀ it ∈ ([] : List ItineraryModel), it.total_price.leQ 250 = true) :=
  have h : find_cheapest_two_city_itinerary_logic step1OnlyProvider emptyCache 0
      (.one "LYS") "2026-04-19" (.fixed 2) (.fixed 2) "Oceania" 1 none none 30 false false
      none none none (some 250) false = .ok [] none := by decide
  ⟨h, odyssey_budget_invariant step1OnlyProvider emptyCache 0 (.one "LYS") "2026-04-19"
      (.fixed 2) (.fixed 2) "Oceania" 1 none none 30 false false none none none false 250
      (by norm_num) [] none h⟩

/-! ## C5 — retry classification, backoff and the no-raise boundary -/

theorem scrape_go_spec (pv : Nat → ProviderOutcome) (q : FetchQuery) (now : ℚ)
    (retry : Nat) (base : ℚ) (cache : CacheF) :
    ∀ fuel attempt, fuel + attempt = retry + 1 → 1 ≤ fuel →
    1 ≤ (scrape_go pv q now retry base cache attempt fuel).calls ∧
    (scrape_go pv q now retry base cache attempt fuel).calls ≤ fuel ∧
    (∀ i, i + 1 < (scrape_go pv q now retry base cache attempt fuel).calls →
      ∃ msg, pv (attempt + i) = .raise msg ∧ is_timeout_error msg = true) ∧
    (scrape_go pv q now retry base cache attempt fuel).sleeps =
      (List.range ((scrape_go pv q now retry base cache attempt fuel).calls - 1)).map
        (fun i => base * 2 ^ (attempt + i)) ∧
    (∀ msg,
      pv (attempt + ((scrape_go pv q now retry base cache attempt fuel).calls - 1)) =
        .raise msg →
      (scrape_go pv q now retry base cache attempt fuel).result = none) := by
  intro fuel
  induction fuel with
  | zero => intro attempt h h1; omega
  | succ f ih =>
    intro attempt hsum hfuel
    cases hp : pv attempt with
    | raise msg =>
      by_cases hr : (is_timeout_error msg && decide (attempt < retry)) = true
      · have hto : is_timeout_error msg = true ∧ attempt < retry := by simpa using hr
        have hlt : attempt < retry := hto.2
        have hf : 1 ≤ f := by omega
        have hsum' : f + (attempt + 1) = retry + 1 := by omega
        obtain ⟨ih1, ih2, ih3, ih4, ih5⟩ := ih (attempt + 1) hsum' hf
        have hout : scrape_go pv q now retry base cache attempt (f + 1) =
            { result := (scrape_go pv q now retry base cache (attempt + 1) f).result,
              cache := (scrape_go pv q now retry base cache (attempt + 1) f).cache,
              calls := (scrape_go pv q now retry base cache (attempt + 1) f).calls + 1,
              sleeps := base * 2 ^ attempt ::
                (scrape_go pv q now retry base cache (attempt + 1) f).sleeps } := by
          simp [scrape_go, hp, hr]
        rw [hout]
        dsimp only
        refine ⟨by omega, by omega, ?_, ?_, ?_⟩
        · intro i hi
          cases i with
          | zero => exact ⟨msg, by simpa using hp, hto.1⟩
          | succ j =>
            obtain ⟨m, hm1, hm2⟩ := ih3 j (by omega)
            refine ⟨m, ?_, hm2⟩
            rw [show attempt + (j + 1) = attempt + 1 + j from by omega]
            exact hm1
        · rw [Nat.add_sub_cancel,
            show (scrape_go pv q now retry base cache (attempt + 1) f).calls =
              ((scrape_go pv q now retry base cache (attempt + 1) f).calls - 1) + 1 from by
              omega,
            List.range_succ_eq_map, List.map_cons, List.map_map, ih4]
          congr 1
          apply List.map_congr_left
          intro i _
          simp only [Function.comp_apply]
          congr 2
          omega
        · intro m hm
          apply ih5 m
          rw [show attempt + 1 +
              ((scrape_go pv q now retry base cache (attempt + 1) f).calls - 1) =
            attempt + ((scrape_go pv q now retry base cache (attempt + 1) f).calls + 1 - 1)
            from by omega]
          exact hm
      · have hout : scrape_go pv q now retry base cache attempt (f + 1) =
            { result := none, cache := cache, calls := 1, sleeps := [] } := by
          simp only [scrape_go, hp]
          rw [if_neg (by simpa using hr)]
        rw [hout]
        dsimp only
        exact ⟨le_refl 1, by omega, fun i hi => absurd hi (by omega), by simp,
          fun m _ => rfl⟩
    | ok res =>
      have hout : scrape_go pv q now retry base cache attempt (f + 1) =
          { result := (match res with
              | some (f0 :: fs) => (process_flights q now cache (f0 :: fs)).1
              | _ => none),
            cache := (match res with
              | some (f0 :: fs) => (process_flights q now cache (f0 :: fs)).2
              | _ => cache), calls := 1, sleeps := [] } := by
        cases res with
        | none => simp [scrape_go, hp]
        | some flights => cases flights with
          | nil => simp [scrape_go, hp]
          | cons f0 fs => simp [scrape_go, hp]
      rw [hout]
      dsimp only
      refine ⟨le_refl 1, by omega, fun i hi => absurd hi (by omega), by simp,
        fun m hm => ?_⟩
      rw [show attempt + (1 - 1) = attempt from by omega, hp] at hm
      cases hm

/-- **C5**: for every fetch attempt sequence of `scrape_and_cache`, the
provider is called at least once and at most `retry_attempts + 1` times; a
retry happens only when the previous call failed with the recognized
timeout signature (`"Timeout"` and `"wait_for"` in the message); exactly one
backoff sleep of `base * 2 ^ attempt` seconds precedes each retry; and when
the final call fails (terminal failure or exhausted retries) the fetch
returns the absent result — the loop catches every provider exception, so
by construction nothing is raised past the fetcher boundary. -/
theorem fetch_retry_policy (provider : Provider) (q : FetchQuery) (now : ℚ)
    (retry_attempts : Nat) (base : ℚ) (cache : CacheF) :
    1 ≤ (scrape_and_cache provider q now retry_attempts base cache).calls ∧
    (scrape_and_cache provider q now retry_attempts base cache).calls ≤ retry_attempts + 1 ∧
    (∀ i, i + 1 < (scrape_and_cache provider q now retry_attempts base cache).calls →
      ∃ msg, provider ⟨q.origin, q.dest, q.date, q.adults, q.seat_type⟩ i = .raise msg ∧
        is_timeout_error msg = true) ∧
    (scrape_and_cache provider q now retry_attempts base cache).sleeps =
      (List.range ((scrape_and_cache provider q now retry_attempts base cache).calls - 1)).map
        (fun i => base * 2 ^ i) ∧
    (∀ msg,
      provider ⟨q.origin, q.dest, q.date, q.adults, q.seat_type⟩
          ((scrape_and_cache provider q now retry_attempts base cache).calls - 1) =
        .raise msg →
      (scrape_and_cache provider q now retry_attempts base cache).result = none) := by
  have h := scrape_go_spec (provider ⟨q.origin, q.dest, q.date, q.adults, q.seat_type⟩)
    q now retry_attempts base cache (retry_attempts + 1) 0 (by omega) (by omega)
  obtain ⟨h1, h2, h3, h4, h5⟩ := h
  refine ⟨h1, h2, ?_, ?_, ?_⟩
  · intro i hi
    simpa using h3 i hi
  · simpa using h4
  · intro msg hm
    apply h5 msg
    simpa using hm

/-- Witness for C5: with `retry_attempts = 2` against the flaky provider,
the loop makes at most 3 calls, performs exactly the `base * 2 ^ i`
backoff sleeps, and ends with an absent result. -/
theorem fetch_retry_policy_witness :
    (scrape_and_cache flakyProvider sampleQuery 0 2 1 emptyCache).calls ≤ 2 + 1 ∧
    (scrape_and_cache flakyProvider sampleQuery 0 2 1 emptyCache).sleeps =
      (List.range ((scrape_and_cache flakyProvider sampleQuery 0 2 1 emptyCache).calls - 1)).map
        (fun i => 1 * 2 ^ i) ∧
    (scrape_and_cache flakyProvider sampleQuery 0 2 1 emptyCache).result = none :=
  ⟨(fetch_retry_policy flakyProvider sampleQuery 0 2 1 emptyCache).2.1,
   (fetch_retry_policy flakyProvider sampleQuery 0 2 1 emptyCache).2.2.2.1,
   (fetch_retry_policy flakyProvider sampleQuery 0 2 1 emptyCache).2.2.2.2 "boom"
     (by decide)⟩

/-! ## C7 — first-minimum offer selection and cache write-through -/

theorem PyFloat.le_of_lt {a b : PyFloat} (h : a.lt b = true) : a.le b = true := by
  cases a <;> cases b <;> simp_all [PyFloat.le, PyFloat.lt] <;> linarith

theorem PyFloat.lt_of_le_of_lt {a b c : PyFloat} (h1 : a.le b = true) (h2 : b.lt c = true) :
    a.lt c = true := by
  cases a <;> cases b <;> cases c <;> simp_all [PyFloat.le, PyFloat.lt] <;> linarith

/-- Python's `min(key=...)` returns an element of minimal key, and among
elements of minimal key the first one in list order: the list splits as
`l1 ++ min :: l2` with every element of `l1` strictly greater. -/
theorem pyMinBy_spec {α : Type} (key : α → PyFloat) (x : α) (xs : List α) :
    ∃ l1 l2, x :: xs = l1 ++ pyMinBy key x xs :: l2 ∧
      (∀ y ∈ x :: xs, (key (pyMinBy key x xs)).le (key y) = true) ∧
      (∀ y ∈ l1, (key (pyMinBy key x xs)).lt (key y) = true) := by
  induction xs generalizing x with
  | nil =>
    refine ⟨[], [], rfl, ?_, by simp⟩
    intro y hy
    rcases List.mem_singleton.mp hy with rfl
    simp [pyMinBy, PyFloat.le_refl]
  | cons y ys ih =>
    by_cases h : (key y).lt (key x) = true
    · obtain ⟨l1, l2, hdec, hmin, hfirst⟩ := ih y
      set m := pyMinBy key y ys with hmdef
      have hm : pyMinBy key x (y :: ys) = m := by simp [pyMinBy, h, hmdef]
      rw [hm]
      have hmx : (key m).lt (key x) = true :=
        PyFloat.lt_of_le_of_lt (hmin y (List.mem_cons_self _ _)) h
      refine ⟨x :: l1, l2, ?_, ?_, ?_⟩
      · rw [List.cons_append, ← hdec]
      · intro z hz
        rcases List.mem_cons.mp hz with rfl | hz
        · exact PyFloat.le_of_lt hmx
        · exact hmin z hz
      · intro z hz
        rcases List.mem_cons.mp hz with rfl | hz
        · exact hmx
        · exact hfirst z hz
    · have h' : (key y).lt (key x) = false := Bool.eq_false_iff.mpr h
      obtain ⟨l1, l2, hdec, hmin, hfirst⟩ := ih x
      set m := pyMinBy key x ys with hmdef
      have hm : pyMinBy key x (y :: ys) = m := by simp [pyMinBy, h', hmdef]
      rw [hm]
      have hxy : (key x).le (key y) = true := PyFloat.le_of_not_lt h'
      cases l1 with
      | nil =>
        simp only [List.nil_append] at hdec
        injection hdec with h1 h2
        refine ⟨[], y :: ys, ?_, ?_, by simp⟩
        · rw [List.nil_append, ← h1]
        · intro w hw
          rcases List.mem_cons.mp hw with rfl | hw
          · rw [← h1]
            exact PyFloat.le_refl _
          · rcases List.mem_cons.mp hw with rfl | hw
            · rw [← h1]
              exact hxy
            · exact hmin w (List.mem_cons_of_mem _ hw)
      | cons z l1' =>
        rw [List.cons_append] at hdec
        injection hdec with h1 h2
        subst h1
        have hmltx : (key m).lt (key x) = true := hfirst x (List.mem_cons_self _ _)
        have hmlty : (key m).lt (key y) = true := PyFloat.lt_of_lt_of_le hmltx hxy
        refine ⟨x :: y :: l1', l2, ?_, ?_, ?_⟩
        · simp only [List.cons_append]
          rw [← h2]
        · intro w hw
          rcases List.mem_cons.mp hw with rfl | hw
          · exact hmin w (List.mem_cons_self _ _)
          · rcases List.mem_cons.mp hw with rfl | hw
            · exact PyFloat.le_of_lt hmlty
            · exact hmin w (List.mem_cons_of_mem _ hw)
        · intro w hw
          rcases List.mem_cons.mp hw with rfl | hw
          · exact hmltx
          · rcases List.mem_cons.mp hw with rfl | hw
            · exact hmlty
            · exact hfirst w (List.mem_cons_of_mem _ hw)

/-- Every offer surviving `valid_offers` passed the validity filter: its
price string is not the `"Unavailable"` sentinel and parses to a positive
finite number. -/
theorem mem_valid_offers {q : FetchQuery} {flights : List RawOffer} {f : RawOffer}
    (hf : f ∈ valid_offers q flights) :
    (f.price == some "Unavailable") = false ∧ is_valid_price (parse_price f.price) = true := by
  unfold valid_offers at hf
  have step : ∀ (l : List RawOffer) (c : Bool) (p : RawOffer → Bool),
      f ∈ (if c then l.filter p else l) → f ∈ l := by
    intro l c p h
    split at h
    · exact (List.mem_filter.mp h).1
    · exact h
  have h3 := step _ _ _ hf
  have h2 := step _ _ _ h3
  have h1 := step _ _ _ h2
  have := (List.mem_filter.mp h1).2
  have hb := Bool.and_eq_true_iff.mp this
  exact ⟨by simpa using hb.1, hb.2⟩

/-- **C7**: when the validated-and-filtered offer list of a fetch is
non-empty, the selected offer is one of minimum parsed price, ties broken
by provider order (every offer strictly before it in the surviving list is
strictly more expensive); the returned quote is built from that offer, and
the cache returned alongside the result already holds that quote under the
route key — the cache write happens before the result is returned. -/
theorem fetch_selection_spec (q : FetchQuery) (now : ℚ) (cache : CacheF)
    (flights : List RawOffer) (hne : valid_offers q flights ≠ []) :
    ∃ ch l1 l2,
      valid_offers q flights = l1 ++ ch :: l2 ∧
      (∀ f ∈ valid_offers q flights,
        (parse_price ch.price).le (parse_price f.price) = true) ∧
      (∀ f ∈ l1, (parse_price ch.price).lt (parse_price f.price) = true) ∧
      (process_flights q now cache flights).1 =
        some { destination := q.dest, origin := q.origin, date := q.date,
               price := ch.price.getD "", numeric_price := parse_price ch.price,
               flight := { flight_to_dict ch with
                 buy_link := some (build_google_flights_link q.origin q.dest q.date) },
               cached := false } ∧
      (process_flights q now cache flights).2
          (cache_key q.origin q.dest q.date q.adults q.seat_type) =
        some { price_str := ch.price.getD "", numeric_price := parse_price ch.price,
               flight := { flight_to_dict ch with
                 buy_link := some (build_google_flights_link q.origin q.dest q.date) },
               timestamp := now } := by
  rcases hv : valid_offers q flights with _ | ⟨c, cs⟩
  · exact absurd hv hne
  · obtain ⟨l1, l2, hdec, hmin, hfirst⟩ := pyMinBy_spec (fun f => parse_price f.price) c cs
    have hch : pyMinBy (fun f => parse_price f.price) c cs ∈ valid_offers q flights := by
      rw [hv, hdec]
      exact List.mem_append_right _ (List.mem_cons_self _ _)
    have hvalid := (mem_valid_offers hch).2
    refine ⟨pyMinBy (fun f => parse_price f.price) c cs, l1, l2, hdec, ?_, hfirst, ?_, ?_⟩
    · intro f hf
      exact hmin f hf
    · simp only [process_flights, hv, hvalid, if_true]
    · simp only [process_flights, hv, hvalid, if_true, set_cached_flight, if_pos rfl]

/-- Witness for C7 at a concrete offer list with a price tie. -/
theorem fetch_selection_spec_witness :
    ∃ ch l1 l2,
      valid_offers sampleQuery wOffers = l1 ++ ch :: l2 ∧
      (∀ f ∈ valid_offers sampleQuery wOffers,
        (parse_price ch.price).le (parse_price f.price) = true) ∧
      (∀ f ∈ l1, (parse_price ch.price).lt (parse_price f.price) = true) ∧
      (process_flights sampleQuery 0 emptyCache wOffers).1 =
        some { destination := sampleQuery.dest, origin := sampleQuery.origin,
               date := sampleQuery.date, price := ch.price.getD "",
               numeric_price := parse_price ch.price,
               flight := { flight_to_dict ch with
                 buy_link := some (build_google_flights_link sampleQuery.origin
                   sampleQuery.dest sampleQuery.date) },
               cached := false } ∧
      (process_flights sampleQuery 0 emptyCache wOffers).2
          (cache_key sampleQuery.origin sampleQuery.dest sampleQuery.date
            sampleQuery.adults sampleQuery.seat_type) =
        some { price_str := ch.price.getD "", numeric_price := parse_price ch.price,
               flight := { flight_to_dict ch with
                 buy_link := some (build_google_flights_link sampleQuery.origin
                   sampleQuery.dest sampleQuery.date) },
               timestamp := 0 } :=
  fetch_selection_spec sampleQuery 0 emptyCache wOffers (by decide)

/-! ## C3 — no invalid or sentinel-priced quote is ever surfaced -/

/-- A price that parses to a valid fare is a present string. -/
theorem price_is_some_of_valid {p : Option String}
    (h : is_valid_price (parse_price p) = true) : ∃ s, p = some s := by
  cases p with
  | none => simp [parse_price, is_valid_price] at h
  | some s => exact ⟨s, rfl⟩

/-- The selection step only surfaces and caches valid, non-sentinel
quotes. -/
theorem process_flights_spec (q : FetchQuery) (now : ℚ) (cache : CacheF)
    (flights : List RawOffer) :
    (∀ r, (process_flights q now cache flights).1 = some r →
      is_valid_price r.numeric_price = true ∧ r.price ≠ "Unavailable") ∧
    (CacheWF cache → CacheWF (process_flights q now cache flights).2) := by
  rcases hv : valid_offers q flights with _ | ⟨c, cs⟩
  · constructor
    · intro r hr
      simp [process_flights, hv] at hr
    · intro hwf
      simpa [process_flights, hv] using hwf
  · by_cases hval : is_valid_price (parse_price (pyMinBy (fun f => parse_price f.price) c
      cs).price) = true
    · have hch : pyMinBy (fun f => parse_price f.price) c cs ∈ valid_offers q flights := by
        obtain ⟨l1, l2, hdec, -, -⟩ := pyMinBy_spec (fun f => parse_price f.price) c cs
        rw [hv, hdec]
        exact List.mem_append_right _ (List.mem_cons_self _ _)
      obtain ⟨hsent, hvp⟩ := mem_valid_offers hch
      obtain ⟨s, hs⟩ := price_is_some_of_valid hvp
      have hsne : s ≠ "Unavailable" := by
        rw [hs] at hsent
        simpa using hsent
      constructor
      · intro r hr
        simp only [process_flights, hv, hval, if_true, Option.some.injEq] at hr
        subst hr
        refine ⟨hval, ?_⟩
        simpa [hs] using hsne
      · intro hwf k e he
        simp only [process_flights, hv, hval, if_true, set_cached_flight] at he
        by_cases hk : k = cache_key q.origin q.dest q.date q.adults q.seat_type
        · rw [if_pos hk] at he
          injection he with he
          subst he
          refine ⟨hval, ?_⟩
          simpa [hs] using hsne
        · rw [if_neg hk] at he
          exact hwf k e he
    · have hval' : is_valid_price (parse_price (pyMinBy (fun f => parse_price f.price) c
        cs).price) = false := Bool.eq_false_iff.mpr hval
      constructor
      · intro r hr
        simp [process_flights, hv, hval'] at hr
      · intro hwf
        simpa [process_flights, hv, hval'] using hwf

/-- The retry loop only surfaces results produced by the selection step and
only writes the cache through it. -/
theorem scrape_go_valid (pv : Nat → ProviderOutcome) (q : FetchQuery) (now : ℚ)
    (retry : Nat) (base : ℚ) :
    ∀ fuel (cache : CacheF) attempt,
    (∀ r, (scrape_go pv q now retry base cache attempt fuel).result = some r →
      is_valid_price r.numeric_price = true ∧ r.price ≠ "Unavailable") ∧
    (CacheWF cache → CacheWF (scrape_go pv q now retry base cache attempt fuel).cache) := by
  intro fuel
  induction fuel with
  | zero =>
    intro cache attempt
    exact ⟨fun r hr => by simp [scrape_go] at hr, fun h => h⟩
  | succ f ih =>
    intro cache attempt
    cases hp : pv attempt with
    | raise msg =>
      by_cases hr : (is_timeout_error msg && decide (attempt < retry)) = true
      · have := ih cache (attempt + 1)
        constructor
        · intro r hres
          apply this.1 r
          simpa [scrape_go, hp, hr] using hres
        · intro hwf
          have h2 := this.2 hwf
          simpa [scrape_go, hp, hr] using h2
      · constructor
        · intro r hres
          simp only [scrape_go, hp] at hres
          rw [if_neg (by simpa using hr)] at hres
          cases hres
        · intro hwf
          simp only [scrape_go, hp]
          rw [if_neg (by simpa using hr)]
          exact hwf
    | ok res =>
      cases res with
      | none => exact ⟨fun r hres => by simp [scrape_go, hp] at hres, fun hwf => by
          simpa [scrape_go, hp] using hwf⟩
      | some flights =>
        cases flights with
        | nil => exact ⟨fun r hres => by simp [scrape_go, hp] at hres, fun hwf => by
            simpa [scrape_go, hp] using hwf⟩
        | cons f0 fs =>
          have hps := process_flights_spec q now cache (f0 :: fs)
          constructor
          · intro r hres
            apply hps.1 r
            simpa [scrape_go, hp] using hres
          · intro hwf
            have := hps.2 hwf
            simpa [scrape_go, hp] using this

/-- Every option kept by the direct-route option builder has a valid price
and a non-sentinel display price. -/
theorem mem_build_route_opts (origin destination date : String) (d : Bool)
    (incl excl : Option (List String)) (da db ab : Option Nat) :
    ∀ (flights : List RawOffer) seen o,
    o ∈ build_route_opts origin destination date d incl excl da db ab flights seen →
    is_valid_price o.numeric_price = true ∧ o.price ≠ "Unavailable" := by
  intro flights
  induction flights with
  | nil => intro seen o ho; simp [build_route_opts] at ho
  | cons f fs ih =>
    intro seen o ho
    simp only [build_route_opts] at ho
    split at ho
    · exact ih seen o ho
    · split at ho
      · exact ih seen o ho
      · split at ho
        · exact ih seen o ho
        · split at ho
          · exact ih seen o ho
          · rcases List.mem_cons.mp ho with rfl | ho
            · rename_i hskip _ _ _
              have hb := Bool.or_eq_false_iff.mp (Bool.eq_false_iff.mpr hskip)
              have hvp : is_valid_price (parse_price f.price) = true := by
                simpa using hb.2
              obtain ⟨s, hs⟩ := price_is_some_of_valid hvp
              have hsent := hb.1
              rw [hs] at hsent
              have hsne : s ≠ "Unavailable" := by simpa using hsent
              exact ⟨hvp, by simpa [hs] using hsne⟩
            · exact ih _ o ho

/-- **C3**: no path that surfaces a quote lets an invalid price through:
(i) any result of `async_fetch_cheapest` (cache read or fresh fetch) has a
valid — positive and finite — numeric price, unconditionally; (ii) under a
well-formed cache the surfaced display price is never the `"Unavailable"`
sentinel and the cache stays well-formed (so system-written caches always
are); (iii) every option produced by the direct-route builder
`fetch_route_options` has a valid numeric price and a non-sentinel display
price.  Itinerary assembly consumes only these outputs. -/
theorem quote_validity_invariant :
    (∀ (provider : Provider) (cache : CacheF) (now : ℚ) (q : FetchQuery) (infl : Bool)
        (retry : Nat) (base : ℚ) (r : FetchResult),
        (async_fetch_cheapest provider cache now q infl retry base).result = some r →
        is_valid_price r.numeric_price = true) ∧
    (∀ (provider : Provider) (cache : CacheF) (now : ℚ) (q : FetchQuery) (infl : Bool)
        (retry : Nat) (base : ℚ), CacheWF cache →
        (∀ r, (async_fetch_cheapest provider cache now q infl retry base).result = some r →
          r.price ≠ "Unavailable") ∧
        CacheWF (async_fetch_cheapest provider cache now q infl retry base).cache) ∧
    (∀ (provider : Provider) (origin dest date : String) (mr adults : Nat) (seat : String)
        (d : Bool) (incl excl : Option (List String)) (da db ab : Option Nat) (retry : Nat)
        (opts : List Leg),
        fetch_route_options provider origin dest date mr adults seat d incl excl da db ab
          retry = .ok opts →
        ∀ o ∈ opts, is_valid_price o.numeric_price = true ∧ o.price ≠ "Unavailable") := by
  have hcached : ∀ (cache : CacheF) (now : ℚ) (o dst dt : String) (ad : Nat) (st : String)
      (r : FetchResult), get_cached_flight cache now o dst dt ad st = some r →
      ∃ e, cache (cache_key o dst dt ad st) = some e ∧ r.numeric_price = e.numeric_price ∧
        r.price = e.price_str := by
    intro cache now o dst dt ad st r hr
    rcases hk : cache (cache_key o dst dt ad st) with _ | e
    · unfold get_cached_flight at hr
      rw [hk] at hr
      cases hr
    · unfold get_cached_flight at hr
      rw [hk] at hr
      dsimp only at hr
      split at hr
      · injection hr with hr
        subst hr
        exact ⟨e, rfl, rfl, rfl⟩
      · cases hr
  refine ⟨?_, ?_, ?_⟩
  · intro provider cache now q infl retry base r hr
    unfold async_fetch_cheapest at hr
    dsimp only at hr
    rcases hg : get_cached_flight cache now (pyUpper q.origin) (pyUpper q.dest) q.date
      q.adults q.seat_type with _ | cached
    · rw [hg] at hr
      simp only at hr
      exact (scrape_go_valid _ _ now retry base (retry + 1) cache 0).1 r hr |>.1
    · rw [hg] at hr
      simp only at hr
      split_ifs at hr with h1 h2 h3 h4 <;> cases hr
      simpa using h1
  · intro provider cache now q infl retry base hwf
    constructor
    · intro r hr
      unfold async_fetch_cheapest at hr
      dsimp only at hr
      rcases hg : get_cached_flight cache now (pyUpper q.origin) (pyUpper q.dest) q.date
        q.adults q.seat_type with _ | cached
      · rw [hg] at hr
        simp only at hr
        exact (scrape_go_valid _ _ now retry base (retry + 1) cache 0).1 r hr |>.2
      · rw [hg] at hr
        simp only at hr
        split_ifs at hr <;> cases hr
        obtain ⟨e, hk, -, hp⟩ := hcached cache now _ _ _ _ _ _ hg
        rw [hp]
        exact (hwf _ e hk).2
    · unfold async_fetch_cheapest
      dsimp only
      rcases hg : get_cached_flight cache now (pyUpper q.origin) (pyUpper q.dest) q.date
        q.adults q.seat_type with _ | cached
      · simp only
        exact (scrape_go_valid _ _ now retry base (retry + 1) cache 0).2 hwf
      · simp only
        split_ifs <;> exact hwf
  · intro provider origin dest date mr adults seat d incl excl da db ab retry opts hout o ho
    unfold fetch_route_options at hout
    dsimp only at hout
    rcases hf : route_fetch_go (provider ⟨pyUpper origin, pyUpper dest, date, adults, seat⟩)
      (pyUpper origin) (pyUpper dest) retry 0 (retry + 1) with msg | res
    · rw [hf] at hout; cases hout
    · rw [hf] at hout
      rcases res with _ | flights
      · injection hout with hout
        subst hout
        cases ho
      · rcases flights with _ | ⟨f0, fs⟩
        · injection hout with hout
          subst hout
          cases ho
        · injection hout with hout
          subst hout
          have hmem : o ∈ build_route_opts (pyUpper origin) (pyUpper dest) date d incl excl
              da db ab (f0 :: fs) [] := by
            have h1 := List.take_subset mr _ ho
            exact ((List.perm_insertionSort _ _).mem_iff).mp h1
          exact mem_build_route_opts (pyUpper origin) (pyUpper dest) date d incl excl da db
            ab (f0 :: fs) [] o hmem

/-- Witness for C3: the empty cache is well-formed, and against it a
concrete fetch never surfaces the sentinel. -/
theorem quote_validity_invariant_witness :
    CacheWF emptyCache ∧
    (∀ r, (async_fetch_cheapest goodProvider emptyCache 0 sampleQuery true 2 1).result =
      some r → r.price ≠ "Unavailable") :=
  have hwf : CacheWF emptyCache := fun _ _ h => nomatch h
  ⟨hwf, (quote_validity_invariant.2.1 goodProvider emptyCache 0 sampleQuery true 2 1 hwf).1⟩

/-! ## C4 — request coalescing -/

theorem natLookup_append {α : Type} (l1 l2 : List (Nat × α)) (i : Nat) :
    natLookup (l1 ++ l2) i =
      match natLookup l1 i with
      | some v => some v
      | none => natLookup l2 i := by
  induction l1 with
  | nil => simp [natLookup]
  | cons p rest ih =>
    obtain ⟨j, x⟩ := p
    by_cases hj : j = i
    · simp [natLookup, hj]
    · simp only [List.cons_append, natLookup, if_neg hj]
      exact ih

theorem natLookup_range {α : Type} (v : α) :
    ∀ N i, natLookup ((List.range N).map (fun j => (j, v))) i =
      if i < N then some v else none := by
  intro N
  induction N with
  | zero => intro i; simp [natLookup]
  | succ n ih =>
    intro i
    rw [List.range_succ, List.map_append, natLookup_append, ih i]
    by_cases hi : i < n
    · simp [hi, Nat.lt_succ_of_lt hi]
    · by_cases hin : i = n
      · subst hin
        simp [natLookup, hi]
      · have : ¬ i < n + 1 := by omega
        have hne : ¬ n = i := fun h => hin h.symm
        simp [hi, hin, this, natLookup, hne]

/-- After `N ≥ 1` same-key arrivals and no completion, exactly one task has
been created and registered, and every caller awaits it. -/
theorem coRun_arrivals (k : RequestKey) :
    ∀ N, 1 ≤ N →
    coRun ((List.range N).map (fun i => CoEvent.arrive i k)) =
      { registry := [(k, 0)], next_id := 1, created := [(0, k)],
        waiting := (List.range N).map (fun i => (i, 0)), finished := [] } := by
  intro N
  induction N with
  | zero => intro h; omega
  | succ n ih =>
    intro _
    by_cases hn : 1 ≤ n
    · have hrw : coRun ((List.range (n + 1)).map (fun i => CoEvent.arrive i k)) =
          coStep (coRun ((List.range n).map (fun i => CoEvent.arrive i k)))
            (CoEvent.arrive n k) := by
        rw [List.range_succ, List.map_append]
        simp [coRun, List.foldl_append]
      rw [hrw, ih hn]
      simp only [coStep, regLookup, if_pos rfl]
      rw [List.range_succ, List.map_append]
      rfl
    · have hn0 : n = 0 := by omega
      subst hn0
      simp [coRun, coStep, coInit, regLookup, List.range_succ]

/-- **C4**: with the in-flight registry supplied, `N ≥ 1` concurrent callers
(the check-or-register step of `async_fetch_cheapest` is atomic — it
contains no suspension point) that miss the cache with the same normalized
request key create and register exactly one fetch task, all await that
single task, and once it completes every caller observes the identical
result while the registration is removed (the creator's guarded `finally`
pop); a call arriving after completion therefore starts a fresh task. -/
theorem coalescer_single_flight (k : RequestKey) (N : Nat) (r : Option FetchResult)
    (hN : 1 ≤ N) :
    (coRun ((List.range N).map (fun i => CoEvent.arrive i k))).created = [(0, k)] ∧
    (coRun ((List.range N).map (fun i => CoEvent.arrive i k))).registry = [(k, 0)] ∧
    (coRun ((List.range N).map (fun i => CoEvent.arrive i k))).waiting =
      (List.range N).map (fun i => (i, 0)) ∧
    (coRun (((List.range N).map (fun i => CoEvent.arrive i k)) ++
      [CoEvent.finish 0 r])).registry = [] ∧
    (∀ i, i < N → callerResult
      (coRun (((List.range N).map (fun i => CoEvent.arrive i k)) ++ [CoEvent.finish 0 r]))
        i = some r) ∧
    (coRun (((List.range N).map (fun i => CoEvent.arrive i k)) ++
        [CoEvent.finish 0 r, CoEvent.arrive N k])).created = [(0, k), (1, k)] ∧
    (coRun (((List.range N).map (fun i => CoEvent.arrive i k)) ++
        [CoEvent.finish 0 r, CoEvent.arrive N k])).registry = [(k, 1)] := by
  have h1 := coRun_arrivals k N hN
  have hfin : coRun (((List.range N).map (fun i => CoEvent.arrive i k)) ++
      [CoEvent.finish 0 r]) =
      { registry := [], next_id := 1, created := [(0, k)],
        waiting := (List.range N).map (fun i => (i, 0)), finished := [(0, r)] } := by
    rw [coRun, List.foldl_append]
    rw [show List.foldl coStep coInit ((List.range N).map (fun i => CoEvent.arrive i k)) =
      coRun ((List.range N).map (fun i => CoEvent.arrive i k)) from rfl, h1]
    simp [coStep]
  have hnext : coRun (((List.range N).map (fun i => CoEvent.arrive i k)) ++
      [CoEvent.finish 0 r, CoEvent.arrive N k]) =
      { registry := [(k, 1)], next_id := 2, created := [(0, k), (1, k)],
        waiting := ((List.range N).map (fun i => (i, 0))) ++ [(N, 1)],
        finished := [(0, r)] } := by
    rw [coRun, List.foldl_append]
    rw [show List.foldl coStep coInit ((List.range N).map (fun i => CoEvent.arrive i k)) =
      coRun ((List.range N).map (fun i => CoEvent.arrive i k)) from rfl, h1]
    simp [coStep, regLookup]
  refine ⟨by rw [h1], by rw [h1], by rw [h1], by rw [hfin], ?_, by rw [hnext],
    by rw [hnext]⟩
  intro i hi
  rw [hfin]
  unfold callerResult
  simp only
  rw [natLookup_range 0 N i, if_pos hi]
  simp [natLookup]

/-- Witness for C4: two concrete callers of the LYS→SYD key share one task
and both observe its (absent) result; a third caller after completion
starts task 1. -/
theorem coalescer_single_flight_witness :
    (coRun ((List.range 2).map (fun i => CoEvent.arrive i (build_request_key
      sampleQuery)))).created = [(0, build_request_key sampleQuery)] ∧
    callerResult (coRun (((List.range 2).map (fun i => CoEvent.arrive i (build_request_key
      sampleQuery))) ++ [CoEvent.finish 0 none])) 1 = some none ∧
    (coRun (((List.range 2).map (fun i => CoEvent.arrive i (build_request_key
        sampleQuery))) ++ [CoEvent.finish 0 none, CoEvent.arrive 2 (build_request_key
        sampleQuery)])).created =
      [(0, build_request_key sampleQuery), (1, build_request_key sampleQuery)] :=
  ⟨(coalescer_single_flight (build_request_key sampleQuery) 2 none (by decide)).1,
   (coalescer_single_flight (build_request_key sampleQuery) 2 none (by decide)).2.2.2.2.1 1
     (by decide),
   (coalescer_single_flight (build_request_key sampleQuery) 2 none (by decide)).2.2.2.2.2.1⟩

end SkyOdyssey
